import Mathlib

/-!
Verification of the AI orchestration core of the mental-health companion
backend (emotion classification, safety evaluation, response composition,
backend orchestration).  The Python sources under
`backend/app/ai/{emotion_detection,response_generator,ai_service_manager}.py`
are shallowly embedded below: floats are modelled as rationals, wall-clock
timestamps as integers (seconds), Python exceptions as `Except String`,
random choices as explicit index parameters, and the external Gemini
service / VADER sentiment analyzer as oracle arguments supplied by the
environment.
-/

set_option maxRecDepth 10000

/-- Python substring containment (`needle in hay`) on character lists. -/
def listInfix (needle : List Char) : List Char → Bool
  | [] => needle.isEmpty
  | c :: t => needle.isPrefixOf (c :: t) || listInfix needle t

/-- Python `needle in hay` on strings (substring containment). -/
def substrB (needle hay : String) : Bool :=
  listInfix needle.toList hay.toList

/-- Python `str.lower()` (ASCII case folding). -/
def pyLower (s : String) : String :=
  ⟨s.toList.map Char.toLower⟩

/-- Python whitespace class `\s` over ASCII: space, tab, newline,
carriage return, vertical tab, form feed. -/
def isPySpace (c : Char) : Bool :=
  c == ' ' || c == '\t' || c == '\n' || c == '\r' || c == '\x0b' || c == '\x0c'

/-- Python `str.strip()` (remove leading and trailing whitespace). -/
def pyStrip (s : String) : String :=
  ⟨((s.toList.dropWhile isPySpace).reverse.dropWhile isPySpace).reverse⟩

/-- Number of whitespace-separated words, Python `len(text.split())`. -/
def wordCount (s : String) : Nat :=
  ((s.toList.splitOnP isPySpace).filter (fun l => !l.isEmpty)).length

/-- Python `\w` word character over ASCII: letters, digits, underscore. -/
def isPyWord (c : Char) : Bool :=
  c.isAlphanum || c == '_'

/-- `re.sub(r"[^\w\s]", " ", text)`: replace every character that is neither
a word character nor whitespace by a space. -/
def cleanText (s : String) : String :=
  ⟨s.toList.map (fun c => if isPyWord c || isPySpace c then c else ' ')⟩

/-- `random.choice(pool)` determinised by an index argument (the claims
under verification never depend on which element is drawn). -/
def pickOne (pool : List String) (i : Nat) : String :=
  pool.getD (i % pool.length) ""

/-- An entry of the resource catalog (`{name, contact, description}`). -/
structure Resource where
  name : String
  contact : String
  description : String
deriving DecidableEq, Repr

/-- `EmotionResult` dataclass from `emotion_detection.py` (the wall-clock
`processing_time_ms` field is not modelled). -/
structure EmotionResult where
  primary_emotion : String
  confidence : ℚ
  secondary_emotions : List (String × ℚ)
  sentiment_score : ℚ
  intensity : String
  keywords_matched : List String
  source : String := "rule_based"
  crisis_indicators : Bool := false
  safety_flags : List String := []
deriving DecidableEq, Repr

/-- `ResponseResult` dataclass from `response_generator.py` (the wall-clock
`generation_time_ms` field is not modelled; `safety_ratings` is an opaque
pass-through from the external service). -/
structure ResponseResult where
  message : String
  response_type : String
  coping_suggestions : List String
  resources : List Resource
  follow_up_questions : List String
  safety_intervention : Bool
  source : String := "rule_based"
deriving DecidableEq, Repr

/-- `SafetyChecker.crisis_keywords` (constructor of `SafetyChecker`). -/
def SafetyChecker.crisis_keywords : List String :=
  ["suicide", "kill myself", "end my life", "hurt myself", "self harm",
   "cutting", "overdose", "die", "death wish", "worthless", "hopeless",
   "can\x27t go on", "no point in living", "want to disappear",
   "better off dead", "end it all", "can\x27t take it anymore"]

/-- Return type of `SafetyChecker.check_safety` (a Python dict in the
source, with these five keys). -/
structure SafetyCheck where
  safety_level : String
  crisis_keywords_found : List String
  needs_intervention : Bool
  high_distress : Bool
  very_negative_sentiment : Bool
deriving DecidableEq, Repr

/-- `SafetyChecker.check_safety`. -/
def SafetyChecker.check_safety (text : String) (emotion_result : EmotionResult) :
    SafetyCheck :=
  let text_lower := pyLower text
  let crisis_keywords_found :=
    SafetyChecker.crisis_keywords.filter (fun k => substrB k text_lower)
  let has_crisis_keywords := crisis_keywords_found.length > 0
  let high_distress :=
    (emotion_result.intensity == "high" || emotion_result.intensity == "extreme") &&
    (emotion_result.primary_emotion == "sad" ||
     emotion_result.primary_emotion == "overwhelmed" ||
     emotion_result.primary_emotion == "hopeless")
  let very_negative_sentiment := decide (emotion_result.sentiment_score < -(8 : ℚ)/10)
  let safety_level :=
    if has_crisis_keywords then "crisis"
    else if high_distress || very_negative_sentiment then "high"
    else "normal"
  { safety_level := safety_level
    crisis_keywords_found := crisis_keywords_found
    needs_intervention := safety_level == "crisis" || safety_level == "high"
    high_distress := high_distress
    very_negative_sentiment := very_negative_sentiment }

/-! ## Emotion classifier (`emotion_detection.py`) -/

/-- One entry of `EmotionKeywords.EMOTION_PATTERNS`.  Each `phrases` regex in
the source has the literal form `w1\s+w2\s+...`; it is modelled as the list
of its literal words. -/
structure EmotionPattern where
  keywords : List String
  phrases : List (List String)
  intensifiers : List String
  weight : ℚ
deriving DecidableEq, Repr

/-- Match the pattern `w1\s+w2\s+...` at the start of `cs` (each word
literal, separated by one or more whitespace characters). -/
def phraseMatchAt : List (List Char) → List Char → Bool
  | [], _ => true
  | [w], cs => w.isPrefixOf cs
  | w :: w2 :: ws, cs =>
    w.isPrefixOf cs &&
    (match cs.drop w.length with
     | [] => false
     | c :: rest => isPySpace c && phraseMatchAt (w2 :: ws) (rest.dropWhile isPySpace))

/-- `re.search` of the pattern `w1\s+w2\s+...` anywhere in the text. -/
def phraseSearch (ws : List (List Char)) : List Char → Bool
  | [] => phraseMatchAt ws []
  | c :: t => phraseMatchAt ws (c :: t) || phraseSearch ws t

/-- `re.search(phrase_pattern, text_lower)` on strings. -/
def phraseSearchS (words : List String) (text : String) : Bool :=
  phraseSearch (words.map String.toList) text.toList
/-- `EMOTION_PATTERNS["stressed"]`; each `phrases` regex of the form
`w1\s+w2\s+...` is modelled as its list of literal words. -/
def pattern_stressed : EmotionPattern :=
  { keywords := ["stressed", "pressure", "overwhelmed", "burden", "deadline", "anxiety", "panic", "worried", "tense", "exhausted", "can\x27t handle", "too much", "breaking point", "falling behind"],
    phrases := [["feel", "stressed"],
      ["under", "pressure"],
      ["so", "much", "work"],
      ["can\x27t", "cope"],
      ["burning", "out"],
      ["at", "my", "limit"]],
    intensifiers := ["extremely", "really", "so", "very", "incredibly"],
    weight := 1 }

/-- `EMOTION_PATTERNS["anxious"]`; each `phrases` regex of the form
`w1\s+w2\s+...` is modelled as its list of literal words. -/
def pattern_anxious : EmotionPattern :=
  { keywords := ["anxious", "nervous", "worry", "fear", "scared", "afraid", "panic", "restless", "uneasy", "apprehensive", "jittery", "what if", "catastrophic", "worst case", "can\x27t stop thinking"],
    phrases := [["feel", "anxious"],
      ["can\x27t", "stop", "worrying"],
      ["panic", "attack"],
      ["racing", "thoughts"],
      ["heart", "racing"],
      ["sweaty", "palms"]],
    intensifiers := ["extremely", "really", "so", "very", "incredibly"],
    weight := 1 }

/-- `EMOTION_PATTERNS["sad"]`; each `phrases` regex of the form
`w1\s+w2\s+...` is modelled as its list of literal words. -/
def pattern_sad : EmotionPattern :=
  { keywords := ["sad", "depressed", "down", "blue", "melancholy", "gloomy", "unhappy", "miserable", "heartbroken", "disappointed", "crying", "tears", "empty", "lonely", "hopeless"],
    phrases := [["feel", "sad"],
      ["feeling", "down"],
      ["can\x27t", "stop", "crying"],
      ["feel", "empty"],
      ["so", "alone"],
      ["lost", "hope"]],
    intensifiers := ["extremely", "really", "so", "very", "deeply"],
    weight := 1 }

/-- `EMOTION_PATTERNS["overwhelmed"]`; each `phrases` regex of the form
`w1\s+w2\s+...` is modelled as its list of literal words. -/
def pattern_overwhelmed : EmotionPattern :=
  { keywords := ["overwhelmed", "too much", "can\x27t handle", "drowning", "swamped", "buried", "crushed", "suffocated", "flooded", "overloaded", "breaking point", "at capacity"],
    phrases := [["feel", "overwhelmed"],
      ["too", "much", "to", "handle"],
      ["drowning", "in"],
      ["can\x27t", "keep", "up"],
      ["falling", "behind"]],
    intensifiers := ["completely", "totally", "absolutely", "utterly"],
    weight := 1 }

/-- `EMOTION_PATTERNS["angry"]`; each `phrases` regex of the form
`w1\s+w2\s+...` is modelled as its list of literal words. -/
def pattern_angry : EmotionPattern :=
  { keywords := ["angry", "mad", "furious", "rage", "irritated", "annoyed", "frustrated", "pissed", "livid", "outraged", "fed up", "hate", "disgusted", "resentful"],
    phrases := [["so", "angry"],
      ["fed", "up"],
      ["can\x27t", "stand"],
      ["makes", "me", "mad"],
      ["losing", "my", "temper"],
      ["want", "to", "scream"]],
    intensifiers := ["extremely", "really", "so", "very", "incredibly"],
    weight := (9 : ℚ)/10 }

/-- `EMOTION_PATTERNS["excited"]`; each `phrases` regex of the form
`w1\s+w2\s+...` is modelled as its list of literal words. -/
def pattern_excited : EmotionPattern :=
  { keywords := ["excited", "thrilled", "ecstatic", "elated", "overjoyed", "amazing", "awesome", "fantastic", "wonderful", "great", "love", "happy", "joy", "delighted", "pumped"],
    phrases := [["so", "excited"],
      ["can\x27t", "wait"],
      ["over", "the", "moon"],
      ["feel", "amazing"],
      ["best", "day", "ever"]],
    intensifiers := ["extremely", "really", "so", "very", "incredibly"],
    weight := (8 : ℚ)/10 }

/-- `EMOTION_PATTERNS["positive"]`; each `phrases` regex of the form
`w1\s+w2\s+...` is modelled as its list of literal words. -/
def pattern_positive : EmotionPattern :=
  { keywords := ["good", "fine", "okay", "alright", "decent", "content", "satisfied", "peaceful", "calm", "grateful", "thankful", "blessed", "optimistic", "hopeful"],
    phrases := [["feel", "good"],
      ["doing", "well"],
      ["things", "are", "okay"],
      ["feeling", "better"],
      ["grateful", "for"]],
    intensifiers := ["really", "pretty", "quite", "fairly"],
    weight := (7 : ℚ)/10 }

/-- `EMOTION_PATTERNS["neutral"]`; each `phrases` regex of the form
`w1\s+w2\s+...` is modelled as its list of literal words. -/
def pattern_neutral : EmotionPattern :=
  { keywords := ["neutral", "normal", "average", "routine", "typical", "nothing special", "same as usual", "meh", "whatever"],
    phrases := [["nothing", "special"],
      ["same", "as", "usual"],
      ["pretty", "normal"],
      ["just", "okay"],
      ["not", "much", "happening"]],
    intensifiers := [],
    weight := (1 : ℚ)/2 }

/-- `EMOTION_PATTERNS["confused"]`; each `phrases` regex of the form
`w1\s+w2\s+...` is modelled as its list of literal words. -/
def pattern_confused : EmotionPattern :=
  { keywords := ["confused", "lost", "uncertain", "unclear", "puzzled", "bewildered", "mixed up", "don\x27t understand", "not sure", "complicated", "conflicted"],
    phrases := [["don\x27t", "understand"],
      ["not", "sure", "what"],
      ["feel", "lost"],
      ["mixed", "feelings"],
      ["don\x27t", "know", "what"]],
    intensifiers := ["really", "completely", "totally", "so"],
    weight := (6 : ℚ)/10 }

/-- `EMOTION_PATTERNS["grateful"]`; each `phrases` regex of the form
`w1\s+w2\s+...` is modelled as its list of literal words. -/
def pattern_grateful : EmotionPattern :=
  { keywords := ["grateful", "thankful", "blessed", "appreciate", "lucky", "fortunate", "thank you", "thanks", "bless", "appreciate"],
    phrases := [["feel", "grateful"],
      ["so", "thankful"],
      ["feel", "blessed"],
      ["appreciate", "that"],
      ["lucky", "to", "have"]],
    intensifiers := ["really", "so", "very", "deeply"],
    weight := (8 : ℚ)/10 }

/-- `EmotionKeywords.EMOTION_PATTERNS` (dict in insertion order). -/
def EMOTION_PATTERNS : List (String × EmotionPattern) :=
  [("stressed", pattern_stressed),
   ("anxious", pattern_anxious),
   ("sad", pattern_sad),
   ("overwhelmed", pattern_overwhelmed),
   ("angry", pattern_angry),
   ("excited", pattern_excited),
   ("positive", pattern_positive),
   ("neutral", pattern_neutral),
   ("confused", pattern_confused),
   ("grateful", pattern_grateful)]

/-- `EmotionKeywords.CRISIS_KEYWORDS`. -/
def EmotionKeywords.CRISIS_KEYWORDS : List String :=
  ["suicide",
   "kill myself",
   "end my life",
   "hurt myself",
   "self harm",
   "cutting",
   "overdose",
   "die",
   "death wish",
   "worthless",
   "hopeless",
   "can\x27t go on",
   "no point in living",
   "want to disappear",
   "better off dead",
   "end it all",
   "can\x27t take it anymore"]

/-- `EmotionKeywords.INTENSITY_MODIFIERS` (dict in insertion order). -/
def INTENSITY_MODIFIERS : List (String × List String) :=
  [("extreme", ["extremely", "incredibly", "utterly", "completely", "totally"]),
  ("high", ["very", "really", "so", "quite", "pretty"]),
  ("medium", ["somewhat", "kind of", "sort of", "a bit", "slightly"]),
  ("low", ["barely", "hardly", "just", "only", "merely"])]
/-- `RuleBasedEmotionDetector._calculate_emotion_scores`, score of one
emotion category: `+weight` per keyword substring match in `text_clean`,
`+weight*1.5` per phrase-regex match in `text_lower`, then `*1.3` once per
matching intensifier word. -/
def emotionScore (d : EmotionPattern) (text_clean text_lower : String) : ℚ :=
  let s1 := d.keywords.foldl
    (fun s k => if substrB k text_clean then s + d.weight else s) 0
  let s2 := d.phrases.foldl
    (fun s p => if phraseSearchS p text_lower then s + d.weight * ((3 : ℚ)/2) else s) s1
  d.intensifiers.foldl
    (fun s i => if substrB i text_lower then s * ((13 : ℚ)/10) else s) s2

/-- `RuleBasedEmotionDetector._calculate_emotion_scores` (dict modelled as
an association list in insertion order). -/
def calculate_emotion_scores (text_clean text_lower : String) :
    List (String × ℚ) :=
  EMOTION_PATTERNS.map (fun ed => (ed.1, emotionScore ed.2 text_clean text_lower))

/-- Return value of `RuleBasedEmotionDetector._analyze_sentiment`. -/
structure SentimentScores where
  compound : ℚ
  positive : ℚ
  negative : ℚ
  neutral : ℚ
  polarity : ℚ
  subjectivity : ℚ
deriving DecidableEq, Repr

/-- `RuleBasedEmotionDetector._analyze_sentiment`: the TextBlob/VADER call
is an external oracle; on its failure the neutral substitute is returned. -/
def analyze_sentiment (vader : Except String SentimentScores) : SentimentScores :=
  match vader with
  | .ok s => s
  | .error _ => ⟨0, 0, 0, 1, 0, 0⟩

/-- `RuleBasedEmotionDetector._apply_sentiment_weighting`. -/
def apply_sentiment_weighting (emotion_scores : List (String × ℚ))
    (compound : ℚ) : List (String × ℚ) :=
  if compound < -(1 : ℚ)/10 then
    emotion_scores.map (fun es =>
      if ["sad", "anxious", "stressed", "overwhelmed", "angry"].contains es.1
      then (es.1, es.2 * (1 + |compound|)) else es)
  else if compound > (1 : ℚ)/10 then
    emotion_scores.map (fun es =>
      if ["excited", "positive", "grateful"].contains es.1
      then (es.1, es.2 * (1 + compound)) else es)
  else emotion_scores

/-- Python `max(items, key=...)`: first element attaining the maximum
(later elements replace only on a strictly greater key). -/
def maxPair (best : String × ℚ) : List (String × ℚ) → String × ℚ
  | [] => best
  | x :: xs => maxPair (if x.2 > best.2 then x else best) xs

/-- `RuleBasedEmotionDetector._get_primary_emotion`. -/
def get_primary_emotion (emotion_scores : List (String × ℚ)) : String :=
  match emotion_scores with
  | [] => "neutral"
  | x :: xs =>
    if (x :: xs).all (fun es => es.2 == 0) then "neutral"
    else
      let primary_emotion := maxPair x xs
      if primary_emotion.2 < (3 : ℚ)/10 then "neutral" else primary_emotion.1

/-- `RuleBasedEmotionDetector._calculate_confidence`. -/
def calculate_confidence (emotion_scores : List (String × ℚ))
    (text : String) : ℚ :=
  match emotion_scores with
  | [] => 0
  | x :: xs =>
    let max_score := (maxPair x xs).2
    let total_score := ((x :: xs).map Prod.snd).sum
    let confidence := if total_score = 0 then 0 else max_score / total_score
    let text_length_factor := min 1 ((wordCount text : ℚ) / 10)
    let confidence := confidence * ((1 : ℚ)/2 + (1 : ℚ)/2 * text_length_factor)
    max 0 (min 1 confidence)

/-- Stable insertion of a pair into a descending-by-score list (after all
entries with a score `≥` its own), modelling Python stable `sort(reverse=True)`. -/
def insertDesc (x : String × ℚ) : List (String × ℚ) → List (String × ℚ)
  | [] => [x]
  | y :: ys => if y.2 < x.2 then x :: y :: ys else y :: insertDesc x ys

/-- Stable descending sort by score. -/
def sortDesc : List (String × ℚ) → List (String × ℚ)
  | [] => []
  | x :: xs => insertDesc x (sortDesc xs)

/-- `RuleBasedEmotionDetector._get_secondary_emotions`. -/
def get_secondary_emotions (emotion_scores : List (String × ℚ))
    (primary_emotion : String) : List (String × ℚ) :=
  match emotion_scores with
  | [] => []
  | x :: xs =>
    let max_value := (maxPair x xs).2
    let secondary := (x :: xs).filterMap (fun es =>
      if es.1 ≠ primary_emotion ∧ es.2 > (1 : ℚ)/5
      then some (es.1, min ((9 : ℚ)/10) (es.2 / max_value)) else none)
    (sortDesc secondary).take 3

/-- Python `max(items, key=...)` over `Nat`-valued counters. -/
def maxPairN (best : String × Nat) : List (String × Nat) → String × Nat
  | [] => best
  | x :: xs => maxPairN (if x.2 > best.2 then x else best) xs

/-- `RuleBasedEmotionDetector._determine_intensity`; the counter dict is
initialised in the order low, medium, high, extreme, and each
`INTENSITY_MODIFIERS` bucket counts its modifiers found as substrings. -/
def determine_intensity (text : String) : String :=
  let count := fun (level : String) =>
    (((INTENSITY_MODIFIERS.lookup level).getD []).filter
      (fun m => substrB m text)).length
  let intensity_scores : List (String × Nat) :=
    [("low", count "low"), ("medium", count "medium"),
     ("high", count "high"), ("extreme", count "extreme")]
  let max_intensity := maxPairN ("low", count "low") intensity_scores.tail
  if max_intensity.2 = 0 then "medium" else max_intensity.1

/-- `RuleBasedEmotionDetector._get_matched_keywords`. -/
def get_matched_keywords (text : String) (emotion : String) : List String :=
  match EMOTION_PATTERNS.lookup emotion with
  | some d => (d.keywords.filter (fun k => substrB k text)).take 5
  | none => []

/-- `RuleBasedEmotionDetector.detect_emotion`.  The VADER/TextBlob call is
the oracle argument; everything else is the deterministic pipeline.  Note
that the constructed `EmotionResult` leaves `crisis_indicators` and
`safety_flags` at their dataclass defaults (`False`, `[]`). -/
def detect_emotion (text : String)
    (vader : Except String SentimentScores) : EmotionResult :=
  let text_lower := pyStrip (pyLower text)
  let text_clean := cleanText text_lower
  let sentiment_scores := analyze_sentiment vader
  let emotion_scores0 := calculate_emotion_scores text_clean text_lower
  let emotion_scores := apply_sentiment_weighting emotion_scores0 sentiment_scores.compound
  let primary_emotion := get_primary_emotion emotion_scores
  let confidence := calculate_confidence emotion_scores text_clean
  let secondary_emotions := get_secondary_emotions emotion_scores primary_emotion
  let intensity := determine_intensity text_lower
  let keywords_matched := get_matched_keywords text_clean primary_emotion
  { primary_emotion := primary_emotion
    confidence := confidence
    secondary_emotions := secondary_emotions
    sentiment_score := sentiment_scores.compound
    intensity := intensity
    keywords_matched := keywords_matched }

/-- `RuleBasedEmotionDetector.detect_crisis_keywords`. -/
def detect_crisis_keywords (text : String) : Bool × List String :=
  let text_lower := pyLower text
  let matched_keywords :=
    EmotionKeywords.CRISIS_KEYWORDS.filter (fun k => substrB k text_lower)
  (decide (matched_keywords.length > 0), matched_keywords)

/-- Parsed reply of `gemini_service.analyze_emotion_with_gemini` (an
external service; the dict's `.get` defaults are baked into the field
defaults). -/
structure GeminiEmotion where
  primary_emotion : String := "neutral"
  confidence : ℚ := (1 : ℚ)/2
  secondary_emotions : List String := []
  intensity : ℚ := (1 : ℚ)/2
  crisis_indicators : Bool := false
deriving DecidableEq, Repr

/-- `EmotionDetectionService._map_intensity`. -/
def map_intensity (intensity_value : ℚ) : String :=
  if intensity_value ≥ (8 : ℚ)/10 then "high"
  else if intensity_value ≥ (6 : ℚ)/10 then "medium"
  else if intensity_value ≥ (3 : ℚ)/10 then "low"
  else "minimal"

/-- `EmotionDetectionService._calculate_sentiment_score`: VADER compound on
the raw text, `0` if the analyzer errors. -/
def calculate_sentiment_score (vaderRaw : Except String ℚ) : ℚ :=
  match vaderRaw with
  | .ok c => c
  | .error _ => 0

/-- `EmotionDetectionService._analyze_with_gemini`.  `geminiAvailable`
models `gemini_service.is_available()`, `geminiRes` the external call
(`Except.error` = raised exception), `fallback_enabled` the
`GEMINI_FALLBACK_ENABLED` flag, `vader`/`vaderRaw` the sentiment oracle.
The independent rule-based crisis scan is OR'd into the external result. -/
def analyze_with_gemini (text : String) (geminiAvailable : Bool)
    (geminiRes : Except String GeminiEmotion) (fallback_enabled : Bool)
    (vader : Except String SentimentScores) (vaderRaw : Except String ℚ) :
    Except String EmotionResult :=
  if !geminiAvailable then .ok (detect_emotion text vader)
  else
    match geminiRes with
    | .ok g =>
      let cd := detect_crisis_keywords text
      .ok { primary_emotion := g.primary_emotion
            confidence := g.confidence
            secondary_emotions := g.secondary_emotions.map (fun e => (e, (1 : ℚ)/2))
            sentiment_score := calculate_sentiment_score vaderRaw
            intensity := map_intensity g.intensity
            keywords_matched := []
            source := "gemini"
            crisis_indicators := g.crisis_indicators || cd.1
            safety_flags := if cd.1 then cd.2 else [] }
    | .error e =>
      if fallback_enabled then .ok (detect_emotion text vader) else .error e

/-- `EmotionDetectionService._combine_emotion_results` (the Python
`list(set(...))` for safety flags has unspecified order; modelled as
order-preserving deduplication). -/
def combine_emotion_results (rule_result gemini_result : EmotionResult) :
    EmotionResult :=
  let useGemini := gemini_result.confidence > rule_result.confidence
  let primary_emotion :=
    if useGemini then gemini_result.primary_emotion else rule_result.primary_emotion
  let confidence :=
    if useGemini then gemini_result.confidence else rule_result.confidence
  let source_primary := if useGemini then "gemini" else "rule_based"
  let combined_secondary := gemini_result.secondary_emotions.foldl
    (fun acc es => if acc.any (fun e => e.1 == es.1) then acc else acc ++ [es])
    rule_result.secondary_emotions
  { primary_emotion := primary_emotion
    confidence := confidence
    secondary_emotions := combined_secondary.take 3
    sentiment_score := rule_result.sentiment_score
    intensity := rule_result.intensity
    keywords_matched := rule_result.keywords_matched
    source := "hybrid_" ++ source_primary
    crisis_indicators := rule_result.crisis_indicators || gemini_result.crisis_indicators
    safety_flags := (rule_result.safety_flags ++ gemini_result.safety_flags).dedup }

/-- `EmotionDetectionService._analyze_hybrid`: rule-based result plus a
Gemini enhancement; any exception from the Gemini side falls back to the
rule-based result with source `hybrid_fallback`. -/
def analyze_hybrid (text : String) (geminiAvailable : Bool)
    (geminiRes : Except String GeminiEmotion) (fallback_enabled : Bool)
    (vader : Except String SentimentScores) (vaderRaw : Except String ℚ) :
    EmotionResult :=
  let rule_result := detect_emotion text vader
  if geminiAvailable then
    match analyze_with_gemini text geminiAvailable geminiRes fallback_enabled
        vader vaderRaw with
    | .ok gemini_result => combine_emotion_results rule_result gemini_result
    | .error _ => { detect_emotion text vader with source := "hybrid_fallback" }
  else
    { rule_result with source := "hybrid_fallback" }

/-- Configuration flags consumed by the AI service layer.
`AI_MODEL_TYPE` defaults to `"rule_based"` in `config.py`; the three
`USE_GEMINI_FOR_EMOTIONS` / `USE_GEMINI_FOR_RESPONSES` /
`GEMINI_FALLBACK_ENABLED` flags are referenced by the AI modules and are
modelled as explicit booleans. -/
structure AIConfig where
  ai_model_type : String := "rule_based"
  use_gemini_for_emotions : Bool := false
  use_gemini_for_responses : Bool := false
  gemini_fallback_enabled : Bool := true
deriving DecidableEq, Repr

/-- The neutral `EmotionResult` used for empty input (`source="default"`)
and for the last-resort handler (`source="fallback"`). -/
def neutralResult (src : String) : EmotionResult :=
  { primary_emotion := "neutral"
    confidence := 0
    secondary_emotions := []
    sentiment_score := 0
    intensity := "low"
    keywords_matched := []
    source := src }

/-- `EmotionDetectionService.analyze_emotion`: method dispatch with
empty-input shortcut and the exception handler that falls back to the
rule-based detector and, failing that, to a neutral result.  The `ml`
detector reports `is_available = False`, so the `ml` branch always falls
through to the rule-based detector. -/
def analyze_emotion (text : String) (method : Option String) (cfg : AIConfig)
    (geminiAvailable : Bool) (geminiRes : Except String GeminiEmotion)
    (vader : Except String SentimentScores) (vaderRaw : Except String ℚ) :
    EmotionResult :=
  if pyStrip text == "" then neutralResult "default"
  else
    let m := method.getD cfg.ai_model_type
    let attempt : Except String EmotionResult :=
      if m == "gemini" && cfg.use_gemini_for_emotions then
        analyze_with_gemini text geminiAvailable geminiRes
          cfg.gemini_fallback_enabled vader vaderRaw
      else if m == "hybrid" then
        .ok (analyze_hybrid text geminiAvailable geminiRes
          cfg.gemini_fallback_enabled vader vaderRaw)
      else
        .ok (detect_emotion text vader)
    match attempt with
    | .ok r => r
    | .error _ =>
      if m != "rule_based" then detect_emotion text vader
      else neutralResult "fallback"

/-! ## Response composer (`response_generator.py`) -/

def VALIDATION_PHRASES : List (String × List String) :=
  [("stressed",
    ["It sounds like you\x27re carrying a lot right now.",
     "Feeling stressed is completely understandable given what you\x27re going through.",
     "I can hear that you\x27re feeling overwhelmed, and that\x27s valid.",
     "It\x27s natural to feel stressed when you have so much on your mind.",
     "Your feelings of stress are completely legitimate."]),
  ("anxious",
    ["Anxiety can feel really overwhelming, and I want you to know that\x27s okay.",
     "It\x27s understandable that you\x27re feeling anxious about this.",
     "Feeling anxious is your mind\x27s way of trying to protect you.",
     "I hear that you\x27re feeling worried, and those feelings are valid.",
     "Anxiety is difficult to deal with, and you\x27re not alone in feeling this way."]),
  ("sad",
    ["I\x27m sorry you\x27re feeling this way right now.",
     "It\x27s okay to feel sad - these emotions are part of being human.",
     "Your sadness is valid, and it\x27s important to acknowledge these feelings.",
     "I can hear the pain in what you\x27re sharing, and that takes courage.",
     "Feeling sad is a natural response to difficult situations."]),
  ("overwhelmed",
    ["It sounds like you have a lot on your plate right now.",
     "Feeling overwhelmed is a sign that you\x27re dealing with a lot.",
     "It\x27s completely normal to feel this way when facing so much at once.",
     "I can understand why you\x27d feel overwhelmed - that\x27s a lot to handle.",
     "When everything feels like too much, those feelings are completely valid."]),
  ("angry",
    ["It sounds like something has really upset you, and that\x27s understandable.",
     "Your anger is telling you that something important to you has been affected.",
     "Feeling angry can be really intense, and it\x27s okay to feel this way.",
     "It makes sense that you\x27d feel frustrated about this situation.",
     "Your feelings of anger are valid and deserve to be acknowledged."]),
  ("excited",
    ["I can feel your excitement, and that\x27s wonderful!",
     "It\x27s great to hear such positive energy in your message.",
     "Your excitement is contagious - thank you for sharing this joy!",
     "It sounds like something really good is happening for you.",
     "I love hearing when things are going well for you!"]),
  ("positive",
    ["I\x27m so glad to hear you\x27re feeling good.",
     "It\x27s wonderful that you\x27re in a positive headspace.",
     "Thank you for sharing these good feelings with me.",
     "It sounds like things are going well for you right now.",
     "Your positive energy is really uplifting."]),
  ("neutral",
    ["Thank you for sharing how you\x27re feeling right now.",
     "I appreciate you taking the time to check in.",
     "It\x27s perfectly okay to feel neutral sometimes.",
     "Thanks for letting me know where you\x27re at today.",
     "I\x27m here to listen to whatever you\x27re experiencing."]),
  ("confused",
    ["It\x27s okay to feel uncertain - confusion is a natural part of processing things.",
     "Not knowing how to feel or what to think is completely normal.",
     "It sounds like you\x27re working through some complex feelings.",
     "Confusion often means we\x27re in a period of growth and change.",
     "It\x27s alright to not have everything figured out right now."]),
  ("grateful",
    ["It\x27s beautiful to hear you expressing gratitude.",
     "Gratitude is such a powerful and positive emotion.",
     "I\x27m glad you\x27re able to recognize the good things in your life.",
     "Thank you for sharing your appreciation - it\x27s inspiring.",
     "Your gratitude is a lovely reminder of life\x27s positive moments."])]

def SUPPORT_PHRASES : List (String × List String) :=
  [("stressed",
    ["You\x27re stronger than you know, even when stress feels overwhelming.",
     "Remember, it\x27s okay to take things one step at a time.",
     "You don\x27t have to handle everything perfectly - just doing your best is enough.",
     "Stress is temporary, even when it doesn\x27t feel like it.",
     "You\x27ve handled difficult situations before, and you can get through this too."]),
  ("anxious",
    ["You\x27re not alone in feeling this way - anxiety affects many people.",
     "Remember that anxious thoughts are just thoughts, not facts.",
     "You have the strength to get through this anxious moment.",
     "Anxiety is uncomfortable, but it won\x27t last forever.",
     "Taking things moment by moment can help when anxiety feels overwhelming."]),
  ("sad",
    ["It\x27s okay to sit with these feelings for a while - they\x27re part of healing.",
     "Even in sadness, you\x27re showing strength by reaching out.",
     "This difficult time will pass, even though it\x27s hard to see right now.",
     "Your feelings matter, and so do you.",
     "Healing isn\x27t linear - be patient and gentle with yourself."]),
  ("overwhelmed",
    ["Remember, you don\x27t have to solve everything at once.",
     "Breaking things down into smaller steps can make them more manageable.",
     "It\x27s okay to ask for help when you\x27re feeling overwhelmed.",
     "You\x27re doing the best you can with what you have right now.",
     "Taking a step back and breathing can help clear your perspective."]),
  ("angry",
    ["Your anger is valid, and it\x27s important to process these feelings safely.",
     "Sometimes anger is trying to tell us something important about our boundaries.",
     "It\x27s okay to feel angry - the key is finding healthy ways to express it.",
     "Your feelings are legitimate, even if the situation is complicated.",
     "Taking time to cool down can help you think more clearly."]),
  ("excited",
    ["Your excitement is wonderful to witness!",
     "It\x27s great to see you feeling so positive about something.",
     "Enjoy this feeling - you deserve to feel excited and happy.",
     "Your enthusiasm is inspiring and contagious.",
     "These positive moments are so important to celebrate."]),
  ("positive",
    ["I\x27m so happy to hear you\x27re feeling good.",
     "These positive feelings are worth celebrating and holding onto.",
     "It\x27s wonderful when life feels good and balanced.",
     "You deserve to feel this way - soak it in!",
     "Positive moments like these can carry us through tougher times."]),
  ("neutral",
    ["Sometimes neutral is exactly where we need to be.",
     "There\x27s peace in feeling balanced and steady.",
     "Neutral feelings can be a sign of stability and grounding.",
     "It\x27s okay to just be where you are right now.",
     "Not every day needs to be intense - calm is valuable too."]),
  ("confused",
    ["Confusion often precedes clarity - you\x27re in a process of figuring things out.",
     "It\x27s okay to sit with uncertainty while you process your thoughts.",
     "Sometimes the best thing to do is give yourself time to think.",
     "Your confusion shows that you\x27re thoughtfully considering your situation.",
     "Not having all the answers right now is perfectly human."]),
  ("grateful",
    ["Gratitude has such a positive impact on our overall wellbeing.",
     "It\x27s wonderful that you can see the good even during challenging times.",
     "Your appreciation for life\x27s moments is truly special.",
     "Gratitude can be a powerful tool for maintaining perspective.",
     "Thank you for sharing your positive outlook - it\x27s uplifting."])]

def COPING_SUGGESTIONS : List (String × List String) :=
  [("stressed",
    ["Try the 4-7-8 breathing technique: breathe in for 4, hold for 7, exhale for 8.",
     "Take a 5-minute walk, even if it\x27s just around your room or outside.",
     "Write down your top 3 priorities and focus on just one at a time.",
     "Practice progressive muscle relaxation starting from your toes up to your head.",
     "Listen to calming music or nature sounds for a few minutes."]),
  ("anxious",
    ["Use the 5-4-3-2-1 grounding technique: name 5 things you see, 4 you hear, 3 you touch, 2 you smell, 1 you taste.",
     "Practice box breathing: breathe in for 4, hold for 4, out for 4, hold for 4.",
     "Try a brief mindfulness meditation focusing on your breath.",
     "Remind yourself: \x27This feeling will pass, I am safe right now.\x27",
     "Engage in gentle movement like stretching or walking."]),
  ("sad",
    ["Write in a journal about what you\x27re feeling - let it all out on paper.",
     "Reach out to a trusted friend or family member for connection.",
     "Do one small thing that usually brings you comfort, like making tea or listening to favorite music.",
     "Practice self-compassion - speak to yourself like you would a good friend.",
     "Consider watching something uplifting or looking at photos that make you smile."]),
  ("overwhelmed",
    ["Make a list of everything on your mind, then identify what\x27s most urgent.",
     "Use the \x27two-minute rule\x27: if something takes less than two minutes, do it now.",
     "Break larger tasks into smaller, more manageable steps.",
     "Take 10 deep breaths and focus only on your breathing.",
     "Ask yourself: \x27What\x27s one thing I can let go of or delegate?\x27"]),
  ("angry",
    ["Take 10 deep breaths before responding to whatever triggered your anger.",
     "Try physical exercise like jumping jacks or a quick walk to release tension.",
     "Write down your feelings without censoring yourself - then decide if you want to keep it.",
     "Count to 10 (or 100) before saying anything you might regret.",
     "Consider what boundary might need to be set or what you need to communicate."]),
  ("excited",
    ["Channel your excitement into planning your next steps toward your goal.",
     "Share your excitement with someone who will celebrate with you.",
     "Write down what\x27s making you excited so you can remember this feeling later.",
     "Use this positive energy to tackle something you\x27ve been putting off.",
     "Take a moment to really savor and appreciate this wonderful feeling."]),
  ("positive",
    ["Take a moment to practice gratitude for what\x27s going well.",
     "Consider how you can maintain this positive momentum.",
     "Share your good feelings with someone you care about.",
     "Use this positive energy to do something kind for yourself or others.",
     "Write down what\x27s contributing to your positive mood."]),
  ("neutral",
    ["Check in with yourself: are there any needs that aren\x27t being met?",
     "Consider doing a small activity that usually brings you joy.",
     "Practice mindfulness by noticing your surroundings without judgment.",
     "Take this calm moment to do some gentle self-reflection.",
     "Use this stable feeling to plan something you\x27re looking forward to."]),
  ("confused",
    ["Write down your thoughts to help organize and clarify them.",
     "Talk through your confusion with someone you trust.",
     "Make a pros and cons list if you\x27re trying to make a decision.",
     "Take some time away from the confusing situation to get perspective.",
     "Remember that it\x27s okay not to have all the answers right now."]),
  ("grateful",
    ["Write down three specific things you\x27re grateful for today.",
     "Consider expressing your gratitude to someone who has helped you.",
     "Use this grateful feeling to do something kind for someone else.",
     "Take a moment to really appreciate and savor what you\x27re thankful for.",
     "Reflect on how gratitude affects your overall mood and perspective."])]

def CRISIS_RESPONSES : List String :=
  ["I\x27m really concerned about what you\x27ve shared. Your life has value, and there are people who want to help you through this difficult time.",
   "It sounds like you\x27re going through something really difficult right now. Please know that you don\x27t have to face this alone.",
   "I can hear that you\x27re in a lot of pain. These feelings are temporary, even when they don\x27t feel like it. Please reach out for support.",
   "What you\x27re feeling right now is intense and overwhelming, but there are people trained to help you through this.",
   "I\x27m worried about you based on what you\x27ve shared. Your feelings are valid, and there are resources available to help you right now."]

def PROFESSIONAL_HELP_ENCOURAGEMENT : List (String × List String) :=
  [("high_distress",
    ["While I\x27m here to support you, it might be really helpful to talk to a counselor or therapist who can provide more personalized guidance.",
     "Consider reaching out to a mental health professional who can work with you on strategies tailored to your specific situation.",
     "A trained counselor might be able to offer additional tools and perspectives that could be really beneficial for you.",
     "You deserve professional support that can provide more comprehensive help than I can offer."]),
  ("persistent_issues",
    ["If you\x27ve been feeling this way for a while, talking to a professional could provide valuable insights and coping strategies.",
     "Sometimes it helps to have a neutral professional perspective when we\x27re working through ongoing challenges.",
     "A therapist can offer personalized strategies and support that might be really helpful for your specific situation."]),
  ("general",
    ["Remember that seeking professional help is a sign of strength, not weakness.",
     "Mental health professionals are trained to help with exactly what you\x27re experiencing.",
     "There\x27s no shame in getting additional support from someone who specializes in mental health."])]

def RESOURCES : List (String × List Resource) :=
  [("crisis",
    [⟨"National Suicide Prevention Lifeline", "988", "24/7 crisis support"⟩,
     ⟨"Crisis Text Line", "Text HOME to 741741", "24/7 crisis support via text"⟩,
     ⟨"SAMHSA National Helpline", "1-800-662-4357", "Treatment referral service"⟩]),
  ("anxiety",
    [⟨"Anxiety and Depression Association of America", "adaa.org", "Resources and support for anxiety"⟩,
     ⟨"Calm App", "calm.com", "Meditation and relaxation exercises"⟩,
     ⟨"Headspace", "headspace.com", "Mindfulness and meditation"⟩]),
  ("depression",
    [⟨"National Alliance on Mental Illness", "nami.org", "Mental health resources and support"⟩,
     ⟨"Depression and Bipolar Support Alliance", "dbsalliance.org", "Peer support and resources"⟩,
     ⟨"Mental Health America", "mhanational.org", "Mental health screening and resources"⟩]),
  ("stress",
    [⟨"American Psychological Association", "apa.org/topics/stress", "Stress management resources"⟩,
     ⟨"Mindfulness-Based Stress Reduction", "palousemindfulness.com", "Free MBSR course"⟩,
     ⟨"StressStop App", "stressstop.com", "Quick stress relief techniques"⟩]),
  ("general",
    [⟨"Psychology Today", "psychologytoday.com", "Find therapists and mental health professionals"⟩,
     ⟨"BetterHelp", "betterhelp.com", "Online counseling services"⟩,
     ⟨"NAMI Support Groups", "nami.org/Support-Education", "Local support groups"⟩])]
/-- Explicit indices standing in for the `random.choice` / `random.sample`
draws of the response generator (one field per draw site). -/
structure RandDraws where
  crisisIdx : Nat := 0
  profHelpIdx : Nat := 0
  validationIdx : Nat := 0
  supportIdx : Nat := 0
  copingSeed : Nat := 0
deriving DecidableEq, Repr

/-- `random.sample(pool, k)` determinised by a seed: some `k` distinct
elements of the pool (none of the verified claims depends on the draw). -/
def sampleK (pool : List String) (k : Nat) (seed : Nat) : List String :=
  (pool.rotateLeft (seed % (pool.length + 1))).take k

/-- `ResponseGenerator._get_validation_phrase`. -/
def get_validation_phrase (emotion : String) (i : Nat) : String :=
  pickOne ((VALIDATION_PHRASES.lookup emotion).getD
    ((VALIDATION_PHRASES.lookup "neutral").getD [])) i

/-- `ResponseGenerator._get_support_phrase`. -/
def get_support_phrase (emotion : String) (i : Nat) : String :=
  pickOne ((SUPPORT_PHRASES.lookup emotion).getD
    ((SUPPORT_PHRASES.lookup "neutral").getD [])) i

/-- `ResponseGenerator._get_coping_suggestions`. -/
def get_coping_suggestions (emotion intensity : String) (seed : Nat) :
    List String :=
  let suggestions := (COPING_SUGGESTIONS.lookup emotion).getD
    ((COPING_SUGGESTIONS.lookup "neutral").getD [])
  let num_suggestions : Nat :=
    if intensity == "high" || intensity == "extreme" then 3 else 2
  sampleK suggestions (min num_suggestions suggestions.length) seed

/-- `ResponseGenerator._get_resources`. -/
def get_resources (emotion : String) (safety_check : SafetyCheck) :
    List Resource :=
  if safety_check.safety_level == "crisis" then
    (RESOURCES.lookup "crisis").getD []
  else
    let resource_mapping : List (String × String) :=
      [("anxious", "anxiety"), ("stressed", "stress"),
       ("sad", "depression"), ("overwhelmed", "stress")]
    let resource_key := (resource_mapping.lookup emotion).getD "general"
    (RESOURCES.lookup resource_key).getD ((RESOURCES.lookup "general").getD [])

/-- `ResponseGenerator._get_follow_up_questions`. -/
def get_follow_up_questions (emotion : String) : List String :=
  let question_mapping : List (String × List String) :=
    [("stressed",
      ["What\x27s the main source of your stress right now?",
       "Have you been able to take any breaks today?",
       "What usually helps you feel less stressed?"]),
     ("anxious",
      ["What thoughts are going through your mind?",
       "Is there something specific you\x27re worried about?",
       "What has helped with your anxiety before?"]),
     ("sad",
      ["What\x27s been weighing on your heart?",
       "Is there someone you can talk to about this?",
       "What small thing might bring you a bit of comfort?"]),
     ("overwhelmed",
      ["What feels like the most urgent thing on your plate?",
       "What\x27s one task you could potentially let go of or ask for help with?",
       "How have you been taking care of yourself lately?"]),
     ("angry",
      ["What triggered these feelings for you?",
       "How do you usually handle anger in healthy ways?",
       "What boundary might need to be set here?"]),
     ("excited",
      ["What\x27s got you feeling so excited?",
       "How do you want to celebrate or channel this energy?",
       "What are you looking forward to most?"]),
     ("positive",
      ["What\x27s contributing to your positive mood today?",
       "How can you maintain this good feeling?",
       "What are you most grateful for right now?"])]
  (question_mapping.lookup emotion).getD
    ["How are you taking care of yourself today?",
     "What\x27s one thing that might help you feel better?",
     "Is there anything specific you\x27d like to talk about?"]

/-- `ResponseGenerator._generate_crisis_response`.  The `source` argument
mirrors the Python keyword parameter: it is accepted but never written into
the constructed `ResponseResult`, whose `source` field keeps its dataclass
default `"rule_based"`. -/
def generate_crisis_response (rnd : RandDraws) (source : String) : ResponseResult :=
  let crisis_response := pickOne CRISIS_RESPONSES rnd.crisisIdx ++ " " ++
    pickOne ((PROFESSIONAL_HELP_ENCOURAGEMENT.lookup "general").getD [])
      rnd.profHelpIdx
  { message := crisis_response
    response_type := "crisis_intervention"
    coping_suggestions :=
      ["reach_out_immediately", "call_crisis_line", "go_to_emergency_room"]
    resources := (RESOURCES.lookup "crisis").getD []
    follow_up_questions :=
      ["Is there someone you can call right now?",
       "Are you in a safe place?",
       "Would you like me to help you find local crisis resources?"]
    safety_intervention := true }

/-- `ResponseGenerator._generate_rule_based_response`. -/
def generate_rule_based_response (user_input : String) (er : EmotionResult)
    (rnd : RandDraws) : ResponseResult :=
  let safety_check := SafetyChecker.check_safety user_input er
  if safety_check.safety_level == "crisis" then
    generate_crisis_response rnd "rule_based"
  else
    let emotion := er.primary_emotion
    let intensity := er.intensity
    let validation := get_validation_phrase emotion rnd.validationIdx
    let support := get_support_phrase emotion rnd.supportIdx
    let coping_suggestions := get_coping_suggestions emotion intensity rnd.copingSeed
    let resources := get_resources emotion safety_check
    let follow_up_questions := get_follow_up_questions emotion
    let response_parts := [validation, support] ++
      (if safety_check.high_distress then
        [pickOne ((PROFESSIONAL_HELP_ENCOURAGEMENT.lookup "high_distress").getD [])
          rnd.profHelpIdx]
       else []) ++
      (match coping_suggestions with
       | [] => []
       | c :: _ => ["Here\x27s something that might help: " ++ c])
    { message := String.intercalate " " response_parts
      response_type := "supportive"
      coping_suggestions := coping_suggestions
      resources := resources
      follow_up_questions := follow_up_questions
      safety_intervention := safety_check.needs_intervention
      source := "rule_based" }

/-- The `inappropriate_phrases` deny-list of
`ResponseGenerator._validate_and_choose_response`. -/
def inappropriate_phrases : List String :=
  ["just think positive", "get over it", "it could be worse",
   "just relax", "stop being dramatic", "snap out of it"]

/-- `ResponseGenerator._validate_and_choose_response` (the `user_input`
parameter is unused in the source as well). -/
def validate_and_choose_response (gemini_message rule_message user_input :
    String) : String :=
  if gemini_message == "" || (pyStrip gemini_message).length < 20 then
    rule_message
  else
    let gemini_lower := pyLower gemini_message
    if inappropriate_phrases.any (fun p => substrB p gemini_lower) then
      rule_message
    else gemini_message

/-- `ResponseGenerator._generate_gemini_response`.  `gemRep` is the
external `generate_empathetic_response` call (its `message` field),
`gemCoping` the external `get_coping_suggestions` call; `Except.error`
models a raised exception. -/
def generate_gemini_response (user_input : String) (er : EmotionResult)
    (rnd : RandDraws) (gemRep : Except String String)
    (gemCoping : Except String (List String)) (fallback_enabled : Bool) :
    Except String ResponseResult :=
  let safety_check := SafetyChecker.check_safety user_input er
  if safety_check.safety_level == "crisis" then
    .ok (generate_crisis_response rnd "gemini_crisis")
  else
    match gemRep with
    | .ok msg =>
      let coping0 := get_coping_suggestions er.primary_emotion er.intensity
        rnd.copingSeed
      let resources := get_resources er.primary_emotion safety_check
      let follow_up_questions := get_follow_up_questions er.primary_emotion
      let coping_suggestions :=
        match gemCoping with
        | .ok gc => if gc ≠ [] then gc ++ coping0.take 1 else coping0
        | .error _ => coping0
      .ok { message := msg
            response_type := "empathetic_ai"
            coping_suggestions := coping_suggestions
            resources := resources
            follow_up_questions := follow_up_questions
            safety_intervention := safety_check.needs_intervention
            source := "gemini" }
    | .error e =>
      if fallback_enabled then
        .ok (generate_rule_based_response user_input er rnd)
      else .error e

/-- `ResponseGenerator._generate_hybrid_response`: rule-based baseline,
Gemini enhancement validated against the deny-list; a failure in either
external call keeps the baseline with source `hybrid_fallback`. -/
def generate_hybrid_response (user_input : String) (er : EmotionResult)
    (rnd : RandDraws) (gemRep : Except String String)
    (gemCoping : Except String (List String)) : ResponseResult :=
  let safety_check := SafetyChecker.check_safety user_input er
  if safety_check.safety_level == "crisis" then
    generate_crisis_response rnd "hybrid_crisis"
  else
    let rule_response := generate_rule_based_response user_input er rnd
    match gemRep, gemCoping with
    | .ok msg, .ok gemini_coping =>
      let final_message :=
        validate_and_choose_response msg rule_response.message user_input
      let combined_coping :=
        if gemini_coping ≠ [] then
          gemini_coping.take 2 ++ rule_response.coping_suggestions.take 2
        else rule_response.coping_suggestions
      { message := final_message
        response_type := "hybrid_empathetic"
        coping_suggestions := combined_coping.take 3
        resources := rule_response.resources
        follow_up_questions := rule_response.follow_up_questions
        safety_intervention := safety_check.needs_intervention
        source := "hybrid" }
    | _, _ => { rule_response with source := "hybrid_fallback" }

/-- `ResponseGenerator.generate_response`: dispatch on
`USE_GEMINI_FOR_RESPONSES`, Gemini availability and `AI_MODEL_TYPE`. -/
def generate_response (user_input : String) (er : EmotionResult) (rnd : RandDraws)
    (cfg : AIConfig) (geminiAvailable : Bool) (gemRep : Except String String)
    (gemCoping : Except String (List String)) : Except String ResponseResult :=
  if cfg.use_gemini_for_responses && geminiAvailable then
    if cfg.ai_model_type == "hybrid" then
      .ok (generate_hybrid_response user_input er rnd gemRep gemCoping)
    else
      generate_gemini_response user_input er rnd gemRep gemCoping
        cfg.gemini_fallback_enabled
  else
    .ok (generate_rule_based_response user_input er rnd)

/-! ## Backend orchestrator (`ai_service_manager.py`) -/

/-- `AIServiceType` enumeration (Python `Enum` definition order:
RULE_BASED, GEMINI, HYBRID, ML). -/
inductive AIServiceType where
  | rule_based
  | gemini
  | hybrid
  | ml
deriving DecidableEq, Repr

/-- `for service_type in AIServiceType` iteration order. -/
def serviceList : List AIServiceType :=
  [.rule_based, .gemini, .hybrid, .ml]

/-- `AIServiceType.value`. -/
def serviceName : AIServiceType → String
  | .rule_based => "rule_based"
  | .gemini => "gemini"
  | .hybrid => "hybrid"
  | .ml => "ml"

/-- `ServiceStatus` enumeration. -/
inductive ServiceStatus where
  | healthy
  | degraded
  | unavailable
  | error
deriving DecidableEq, Repr

/-- `ServiceHealth` dataclass (`last_check` timestamps are integers in
seconds). -/
structure ServiceHealth where
  status : ServiceStatus := .healthy
  last_check : Int := 0
  response_time_ms : ℚ := 0
  error_count : Nat := 0
  success_count : Nat := 0
  last_error : Option String := none
  availability_percentage : ℚ := 100
deriving DecidableEq, Repr

/-- One circuit-breaker record (`{"failures": 0, "last_failure": None,
"is_open": False}`). -/
structure CircuitBreaker where
  failures : Nat := 0
  last_failure : Option Int := none
  is_open : Bool := false
deriving DecidableEq, Repr

/-- The mutable per-manager state: `service_health`, `circuit_breakers`
and `performance_history`, each keyed by backend. -/
structure ManagerState where
  health : AIServiceType → ServiceHealth
  cbs : AIServiceType → CircuitBreaker
  perf : AIServiceType → List ℚ

/-- State created by `_initialize_health_tracking`. -/
def initialState : ManagerState :=
  { health := fun _ => {}, cbs := fun _ => {}, perf := fun _ => [] }

/-- Point update of the circuit-breaker map. -/
def ManagerState.setCB (st : ManagerState) (s : AIServiceType)
    (cb : CircuitBreaker) : ManagerState :=
  { st with cbs := fun t => if t = s then cb else st.cbs t }

/-- Point update of the health map. -/
def ManagerState.setHealth (st : ManagerState) (s : AIServiceType)
    (h : ServiceHealth) : ManagerState :=
  { st with health := fun t => if t = s then h else st.health t }

/-- Point update of the performance-history map. -/
def ManagerState.setPerf (st : ManagerState) (s : AIServiceType)
    (l : List ℚ) : ManagerState :=
  { st with perf := fun t => if t = s then l else st.perf t }

/-- `circuit_breaker_threshold`. -/
def circuit_breaker_threshold : Nat := 5

/-- `circuit_breaker_timeout` (seconds). -/
def circuit_breaker_timeout : Int := 300

/-- `AIServiceManager._is_circuit_breaker_open` on one breaker record:
returns the verdict and the (possibly lazily reset) record.  The reset
zeroes `failures` and closes the circuit but keeps `last_failure`. -/
def is_circuit_breaker_open (now : Int) (cb : CircuitBreaker) :
    Bool × CircuitBreaker :=
  if !cb.is_open then (false, cb)
  else
    match cb.last_failure with
    | some t =>
      if now - t > circuit_breaker_timeout then
        (false, { cb with is_open := false, failures := 0 })
      else (true, cb)
    | none => (true, cb)

/-- `AIServiceManager._record_service_failure`: increment the failure
counter, stamp the failure time, and open the circuit at the threshold. -/
def record_service_failure (now : Int) (st : ManagerState)
    (s : AIServiceType) : ManagerState :=
  let cb := st.cbs s
  let failures := cb.failures + 1
  st.setCB s
    { failures := failures
      last_failure := some now
      is_open := if failures ≥ circuit_breaker_threshold then true else cb.is_open }

/-- `AIServiceManager._is_service_healthy`: the circuit-breaker gate is
evaluated first (this includes the lazily-reset state); then the
service-specific availability rules (`geminiAvailable` models
`self._is_gemini_available()`). -/
def is_service_healthy (now : Int) (geminiAvailable : Bool)
    (st : ManagerState) (s : AIServiceType) : Bool × ManagerState :=
  let ob := is_circuit_breaker_open now (st.cbs s)
  let st := st.setCB s ob.2
  if ob.1 then (false, st)
  else
    match s with
    | .gemini =>
      (((st.health s).status == .healthy || (st.health s).status == .degraded)
        && geminiAvailable, st)
    | .hybrid =>
      ((st.health s).status == .healthy || (st.health s).status == .degraded, st)
    | .ml => (false, st)
    | .rule_based => (true, st)

/-- `AIServiceManager._get_average_response_time` (`none` stands for the
`float("inf")` penalty for services with no samples). -/
def get_average_response_time (st : ManagerState) (s : AIServiceType) :
    Option ℚ :=
  match st.perf s with
  | [] => none
  | l => some (l.sum / l.length)

/-- Strict comparison of average response times where `none` is `+∞`. -/
def avgLt : Option ℚ → Option ℚ → Bool
  | some a, some b => decide (a < b)
  | some _, none => true
  | none, _ => false

/-- Python `min(list, key=...)`: first element attaining the minimum. -/
def minByAvg (st : ManagerState) (best : AIServiceType) :
    List AIServiceType → AIServiceType
  | [] => best
  | x :: xs =>
    minByAvg st
      (if avgLt (get_average_response_time st x) (get_average_response_time st best)
       then x else best) xs

/-- The healthy-services sweep inside `_select_optimal_service`, threading
the lazily-mutated state through the health checks in iteration order. -/
def collect_healthy (now : Int) (geminiAvailable : Bool) :
    List AIServiceType → ManagerState → List AIServiceType × ManagerState
  | [], st => ([], st)
  | s :: rest, st =>
    let hs := is_service_healthy now geminiAvailable st s
    let rec0 := collect_healthy now geminiAvailable rest hs.2
    ((if hs.1 then s :: rec0.1 else rec0.1), rec0.2)

/-- Steps 2-4 of `_select_optimal_service` (configured default, then best
healthy service by average response time, then `rule_based` last resort). -/
def select_rest (now : Int) (geminiAvailable : Bool)
    (configured : AIServiceType) (st : ManagerState) :
    AIServiceType × ManagerState :=
  let hc := is_service_healthy now geminiAvailable st configured
  if hc.1 then (configured, hc.2)
  else
    let col := collect_healthy now geminiAvailable serviceList hc.2
    match col.1 with
    | [] => (.rule_based, col.2)
    | x :: xs => (minByAvg col.2 x xs, col.2)

/-- `AIServiceManager._select_optimal_service`. -/
def select_optimal_service (now : Int) (geminiAvailable : Bool)
    (configured : AIServiceType) (preferred : Option AIServiceType)
    (st : ManagerState) : AIServiceType × ManagerState :=
  match preferred with
  | some p =>
    let hp := is_service_healthy now geminiAvailable st p
    if hp.1 then (p, hp.2)
    else select_rest now geminiAvailable configured hp.2
  | none => select_rest now geminiAvailable configured st

/-- The fixed fallback chains of `_get_fallback_service`. -/
def fallback_chain : AIServiceType → List AIServiceType
  | .gemini => [.hybrid, .rule_based]
  | .hybrid => [.rule_based, .gemini]
  | .ml => [.rule_based, .hybrid]
  | .rule_based => [.hybrid]

/-- First healthy service of a chain (threading state), else `rule_based`. -/
def first_healthy (now : Int) (geminiAvailable : Bool) :
    List AIServiceType → ManagerState → AIServiceType × ManagerState
  | [], st => (.rule_based, st)
  | s :: rest, st =>
    let hs := is_service_healthy now geminiAvailable st s
    if hs.1 then (s, hs.2) else first_healthy now geminiAvailable rest hs.2

/-- `AIServiceManager._get_fallback_service`. -/
def get_fallback_service (now : Int) (geminiAvailable : Bool)
    (st : ManagerState) (failed : AIServiceType) :
    AIServiceType × ManagerState :=
  first_healthy now geminiAvailable (fallback_chain failed) st

/-- `AIServiceManager._update_service_health`. -/
def update_service_health (now : Int) (st : ManagerState) (s : AIServiceType)
    (response_time : ℚ) (success : Bool) (err : Option String) : ManagerState :=
  let h := st.health s
  if success then
    let perf1 := st.perf s ++ [response_time]
    let perf2 := if perf1.length > 100 then perf1.drop 1 else perf1
    let avg := perf2.sum / perf2.length
    let status : ServiceStatus := if avg < 1000 then .healthy else .degraded
    (st.setPerf s perf2).setHealth s
      { h with
        last_check := now
        success_count := h.success_count + 1
        response_time_ms := response_time
        status := status }
  else
    let error_count := h.error_count + 1
    let total : ℚ := (h.success_count : ℚ) + (error_count : ℚ)
    let availability := ((h.success_count : ℚ) / total) * 100
    let status : ServiceStatus :=
      if availability < 50 then .unavailable
      else if availability < 90 then .degraded
      else .healthy
    st.setHealth s
      { h with
        last_check := now
        error_count := error_count
        last_error := err
        availability_percentage := availability
        status := status }

/-- `AIServiceManager._process_emotion_detection`: the circuit-breaker
guard raises before the `try` block (so an open circuit is not itself
recorded as a failure); a failing detection is recorded. -/
def process_emotion_detection (now : Int) (st : ManagerState)
    (s : AIServiceType) (res : Except String EmotionResult) :
    Except String EmotionResult × ManagerState :=
  let ob := is_circuit_breaker_open now (st.cbs s)
  let st := st.setCB s ob.2
  if ob.1 then (.error "Circuit breaker open", st)
  else
    match res with
    | .ok r => (.ok r, st)
    | .error e => (.error e, record_service_failure now st s)

/-- `AIServiceManager._generate_response` (same guard/record structure). -/
def generate_response_step (now : Int) (st : ManagerState)
    (s : AIServiceType) (res : Except String ResponseResult) :
    Except String ResponseResult × ManagerState :=
  let ob := is_circuit_breaker_open now (st.cbs s)
  let st := st.setCB s ob.2
  if ob.1 then (.error "Circuit breaker open", st)
  else
    match res with
    | .ok r => (.ok r, st)
    | .error e => (.error e, record_service_failure now st s)

/-- One full pipeline attempt against a selected service: emotion
detection then response generation, as executed inside the `try` blocks of
`process_user_input`.  `pipeE`/`pipeR` are the per-service outcomes of the
underlying (oracle) detector and generator calls. -/
def attempt_pipeline (now : Int) (st : ManagerState) (s : AIServiceType)
    (pipeE : AIServiceType → Except String EmotionResult)
    (pipeR : AIServiceType → Except String ResponseResult) :
    Except String (EmotionResult × ResponseResult) × ManagerState :=
  match process_emotion_detection now st s (pipeE s) with
  | (.error e, st1) => (.error e, st1)
  | (.ok er, st1) =>
    match generate_response_step now st1 s (pipeR s) with
    | (.error e, st2) => (.error e, st2)
    | (.ok rr, st2) => (.ok (er, rr), st2)

/-- Combined result of `process_user_input` (health-status snapshot and
wall-clock timing omitted). -/
structure AIProcessingResult where
  emotion_result : EmotionResult
  response_result : ResponseResult
  services_used : List String
  fallbacks_triggered : List String
deriving DecidableEq, Repr

/-- The four `emergency_messages` of `_emergency_fallback_response`. -/
def EMERGENCY_MESSAGES : List String :=
  ["I\x27m having some technical difficulties right now, but I want you to know that I\x27m here for you.",
   "I\x27m experiencing some issues, but your feelings and experiences are still valid and important.",
   "While I\x27m having some technical problems, please know that reaching out was the right thing to do.",
   "I\x27m having trouble processing right now, but if you\x27re in crisis, please contact 988 for immediate support."]

/-- The Crisis Text Line resource entry attached by the emergency path. -/
def crisisTextLineResource : Resource :=
  ⟨"Crisis Text Line", "Text HOME to 741741", "24/7 crisis support"⟩

/-- `AIServiceManager._emergency_fallback_response`. -/
def emergency_fallback_response (eIdx : Nat) (services_used : List String)
    (fallbacks_triggered : List String) : AIProcessingResult :=
  { emotion_result :=
      { primary_emotion := "neutral", confidence := 0, secondary_emotions := [],
        sentiment_score := 0, intensity := "low", keywords_matched := [],
        source := "emergency_fallback" }
    response_result :=
      { message := pickOne EMERGENCY_MESSAGES eIdx
        response_type := "emergency_fallback"
        coping_suggestions := ["Take deep breaths", "Reach out to someone you trust"]
        resources := [crisisTextLineResource]
        follow_up_questions := ["Are you in a safe place right now?"]
        safety_intervention := false
        source := "emergency_fallback" }
    services_used := services_used
    fallbacks_triggered := fallbacks_triggered ++ ["emergency_fallback"] }

/-- `AIServiceManager.process_user_input`: optimal-service selection, one
pipeline attempt, one fallback attempt, then the emergency response.  The
function is total: every Python exception path is converted into a normal
return, exactly as the source's `try/except` structure does. -/
def process_user_input (now : Int) (st0 : ManagerState)
    (geminiAvailable : Bool) (configured : AIServiceType)
    (preferred : Option AIServiceType)
    (pipeE : AIServiceType → Except String EmotionResult)
    (pipeR : AIServiceType → Except String ResponseResult)
    (eIdx : Nat) (dt : ℚ) : AIProcessingResult × ManagerState :=
  let sel := select_optimal_service now geminiAvailable configured preferred st0
  let selected := sel.1
  match attempt_pipeline now sel.2 selected pipeE pipeR with
  | (.ok (er, rr), st2) =>
    let st3 := update_service_health now st2 selected dt true none
    ({ emotion_result := er, response_result := rr,
       services_used := [serviceName selected], fallbacks_triggered := [] }, st3)
  | (.error e, st2) =>
    let fbr := get_fallback_service now geminiAvailable st2 selected
    let fallback := fbr.1
    if fallback ≠ selected then
      let services_used := [serviceName selected, serviceName fallback]
      let fallbacks_triggered :=
        [serviceName selected ++ "_to_" ++ serviceName fallback]
      match attempt_pipeline now fbr.2 fallback pipeE pipeR with
      | (.ok (er, rr), st4) =>
        ({ emotion_result := er, response_result := rr,
           services_used := services_used,
           fallbacks_triggered := fallbacks_triggered }, st4)
      | (.error e2, st4) =>
        let st5 := update_service_health now st4 fallback 0 false (some e2)
        let st6 := update_service_health now st5 selected 0 false (some e)
        (emergency_fallback_response eIdx services_used fallbacks_triggered, st6)
    else
      let st4 := update_service_health now fbr.2 selected 0 false (some e)
      (emergency_fallback_response eIdx [serviceName selected] [], st4)

/-! ## Spec-side definitions used for comparison -/

/-- The fixed primary-emotion enumeration of the spec's data model
(stressed, anxious, sad, overwhelmed, angry, excited, positive, neutral,
confused, grateful, crisis). -/
def EMOTION_ENUM : List String :=
  ["stressed", "anxious", "sad", "overwhelmed", "angry", "excited",
   "positive", "neutral", "confused", "grateful", "crisis"]

/-- The per-emotion raw score exactly as the claim words it: weight per
keyword match plus 1.5 x weight per phrase match, the sum then multiplied
by 1.3 exactly once if ANY intensifier appears (a single boost regardless
of how many intensifiers appear).  Spec-side definition, written to be
compared against `emotionScore` from the source. -/
def emotionScoreClaimedOnce (d : EmotionPattern) (text_clean text_lower : String) : ℚ :=
  let base := d.weight * (d.keywords.countP (fun k => substrB k text_clean) : ℚ)
    + d.weight * ((3 : ℚ)/2) *
      (d.phrases.countP (fun p => phraseSearchS p text_lower) : ℚ)
  if d.intensifiers.any (fun i => substrB i text_lower) then
    base * ((13 : ℚ)/10)
  else base

/-! ## Helper lemmas -/

lemma any_iff_filter_pos (l : List String) (p : String → Bool) :
    l.any p = true ↔ 0 < (l.filter p).length := by
  simp [List.any_eq_true, List.length_pos, List.filter_eq_nil_iff]

lemma exists_iff_filter_pos (l : List String) (p : String → Bool) :
    (∃ k ∈ l, p k = true) ↔ 0 < (l.filter p).length := by
  rw [← any_iff_filter_pos]
  simp [List.any_eq_true]

lemma foldl_add_count (p : α → Bool) (w : ℚ) :
    ∀ (l : List α) (a : ℚ),
      l.foldl (fun s k => if p k then s + w else s) a
        = a + w * (l.countP p : ℚ) := by
  intro l
  induction l with
  | nil => intro a; simp
  | cons x xs ih =>
    intro a
    simp only [List.foldl_cons, List.countP_cons]
    by_cases h : p x
    · rw [if_pos h, ih]
      simp [h]
      ring
    · rw [if_neg h, ih]
      simp [h]

lemma foldl_mul_count (p : α → Bool) (c : ℚ) :
    ∀ (l : List α) (a : ℚ),
      l.foldl (fun s k => if p k then s * c else s) a
        = a * c ^ (l.countP p) := by
  intro l
  induction l with
  | nil => intro a; simp
  | cons x xs ih =>
    intro a
    simp only [List.foldl_cons, List.countP_cons]
    by_cases h : p x
    · rw [if_pos h, ih]
      simp [h, pow_succ]
      ring
    · rw [if_neg h, ih]
      simp [h]

lemma maxPair_mem (x : String × ℚ) (xs : List (String × ℚ)) :
    maxPair x xs = x ∨ maxPair x xs ∈ xs := by
  induction xs generalizing x with
  | nil => left; rfl
  | cons y ys ih =>
    simp only [maxPair]
    rcases ih (if y.2 > x.2 then y else x) with h | h
    · by_cases hy : y.2 > x.2
      · right; rw [h, if_pos hy]; exact List.mem_cons_self y ys
      · left; rw [h, if_neg hy]
    · right; exact List.mem_cons_of_mem y h

lemma pickOne_mem (l : List String) (i : Nat) (h : l ≠ []) :
    pickOne l i ∈ l := by
  have hlen : i % l.length < l.length :=
    Nat.mod_lt i (List.length_pos.mpr h)
  rw [pickOne, List.getD_eq_getElem?_getD, List.getElem?_eq_getElem hlen]
  exact List.getElem_mem hlen

lemma emotionScore_eq (d : EmotionPattern) (text_clean text_lower : String) :
    emotionScore d text_clean text_lower =
      (d.weight * (d.keywords.countP (fun k => substrB k text_clean) : ℚ)
        + d.weight * ((3 : ℚ)/2) *
          (d.phrases.countP (fun p => phraseSearchS p text_lower) : ℚ))
      * ((13 : ℚ)/10) ^ (d.intensifiers.countP (fun i => substrB i text_lower)) := by
  simp only [emotionScore]
  rw [foldl_mul_count, foldl_add_count, foldl_add_count]
  ring

/-! ## Claim theorems -/

/-- C1: For every input text and every `EmotionSignal`,
`SafetyChecker.check_safety` deterministically returns level `"crisis"` if
any configured crisis keyword occurs as a substring of the lowercased
text; otherwise level `"high"` if (intensity is high/extreme AND primary
emotion is sad/overwhelmed/hopeless) OR sentiment score `< -0.8`;
otherwise level `"normal"`; and `needs_intervention` holds exactly when
the level is not `"normal"`.  In particular the first conjunct gives
crisis dominance regardless of the emotion-scoring outcome. -/
theorem check_safety_spec (text : String) (er : EmotionResult) :
    ((∃ k ∈ SafetyChecker.crisis_keywords, substrB k (pyLower text) = true) →
      (SafetyChecker.check_safety text er).safety_level = "crisis")
    ∧ (¬ (∃ k ∈ SafetyChecker.crisis_keywords, substrB k (pyLower text) = true) →
      (((er.intensity = "high" ∨ er.intensity = "extreme") ∧
        (er.primary_emotion = "sad" ∨ er.primary_emotion = "overwhelmed" ∨
          er.primary_emotion = "hopeless")) ∨ er.sentiment_score < -(8 : ℚ)/10) →
      (SafetyChecker.check_safety text er).safety_level = "high")
    ∧ (¬ (∃ k ∈ SafetyChecker.crisis_keywords, substrB k (pyLower text) = true) →
      ¬ ((((er.intensity = "high" ∨ er.intensity = "extreme") ∧
        (er.primary_emotion = "sad" ∨ er.primary_emotion = "overwhelmed" ∨
          er.primary_emotion = "hopeless")) ∨ er.sentiment_score < -(8 : ℚ)/10)) →
      (SafetyChecker.check_safety text er).safety_level = "normal")
    ∧ ((SafetyChecker.check_safety text er).needs_intervention = true ↔
        (SafetyChecker.check_safety text er).safety_level ≠ "normal") := by
  have hch : (∃ k ∈ SafetyChecker.crisis_keywords, substrB k (pyLower text) = true) ↔
      0 < (SafetyChecker.crisis_keywords.filter (fun k => substrB k (pyLower text))).length :=
    exists_iff_filter_pos _ _
  have hcond : (((er.intensity == "high" || er.intensity == "extreme") &&
      (er.primary_emotion == "sad" || er.primary_emotion == "overwhelmed" ||
        er.primary_emotion == "hopeless")) ||
      decide (er.sentiment_score < -(8 : ℚ)/10)) = true ↔
      ((((er.intensity = "high" ∨ er.intensity = "extreme") ∧
        (er.primary_emotion = "sad" ∨ er.primary_emotion = "overwhelmed" ∨
          er.primary_emotion = "hopeless")) ∨ er.sentiment_score < -(8 : ℚ)/10)) := by
    simp only [Bool.or_eq_true, Bool.and_eq_true, beq_iff_eq, decide_eq_true_eq]
    tauto
  refine ⟨?_, ?_, ?_, ?_⟩
  · intro h
    simp only [SafetyChecker.check_safety]
    rw [if_pos (hch.mp h)]
  · intro h hcnd
    simp only [SafetyChecker.check_safety]
    rw [if_neg (fun hp => h (hch.mpr hp)), if_pos (hcond.mpr hcnd)]
  · intro h hcnd
    simp only [SafetyChecker.check_safety]
    rw [if_neg (fun hp => h (hch.mpr hp)),
        if_neg (fun hp => hcnd (hcond.mp hp))]
  · simp only [SafetyChecker.check_safety]
    by_cases h1 : 0 < (SafetyChecker.crisis_keywords.filter
        (fun k => substrB k (pyLower text))).length
    · rw [if_pos h1]; decide
    · rw [if_neg h1]
      by_cases h2 : (((er.intensity == "high" || er.intensity == "extreme") &&
          (er.primary_emotion == "sad" || er.primary_emotion == "overwhelmed" ||
            er.primary_emotion == "hopeless")) ||
          decide (er.sentiment_score < -(8 : ℚ)/10)) = true
      · rw [if_pos h2]; decide
      · rw [if_neg h2]; decide

/-- Witness for C1: a concrete text containing the crisis keyword
`"hopeless"` evaluates to level `"crisis"`. -/
theorem check_safety_spec_witness :
    (∃ k ∈ SafetyChecker.crisis_keywords,
      substrB k (pyLower "I feel hopeless") = true) ∧
    (SafetyChecker.check_safety "I feel hopeless"
      (neutralResult "rule_based")).safety_level = "crisis" :=
  ⟨by decide,
   (check_safety_spec "I feel hopeless" (neutralResult "rule_based")).1 (by decide)⟩


/-- C9 (amended): the raw pre-sentiment score of an emotion category
equals `(weight * #keyword-matches + 1.5 * weight * #phrase-matches)`
multiplied by `1.3` once PER matching intensifier word (i.e. by
`1.3 ^ k` where `k` is the number of the category's intensifier words
occurring anywhere in the text), not by a single `1.3` boost. -/
theorem emotion_score_formula (d : EmotionPattern) (text_clean text_lower : String) :
    emotionScore d text_clean text_lower =
      (d.weight * (d.keywords.countP (fun k => substrB k text_clean) : ℚ)
        + d.weight * ((3 : ℚ)/2) *
          (d.phrases.countP (fun p => phraseSearchS p text_lower) : ℚ))
      * ((13 : ℚ)/10) ^ (d.intensifiers.countP (fun i => substrB i text_lower)) :=
  emotionScore_eq d text_clean text_lower

/-- Counterexample for C9 as frozen: on the text
`"extremely really stressed"` the `stressed` category matches one keyword
(weight `1`), no phrase, and two intensifiers (`extremely` and `really`),
so the source multiplies by `1.3` twice (score `1.69`) while the claimed
single boost gives `1.3`. -/
theorem emotion_score_single_boost_counterexample :
    emotionScore pattern_stressed
        (cleanText (pyStrip (pyLower "extremely really stressed")))
        (pyStrip (pyLower "extremely really stressed")) = (169 : ℚ)/100
    ∧ emotionScoreClaimedOnce pattern_stressed
        (cleanText (pyStrip (pyLower "extremely really stressed")))
        (pyStrip (pyLower "extremely really stressed")) = (13 : ℚ)/10
    ∧ ((169 : ℚ)/100 ≠ (13 : ℚ)/10) := by
  have hk : pattern_stressed.keywords.countP
      (fun k => substrB k (cleanText (pyStrip (pyLower "extremely really stressed")))) = 1 := by
    decide
  have hp : pattern_stressed.phrases.countP
      (fun p => phraseSearchS p (pyStrip (pyLower "extremely really stressed"))) = 0 := by
    decide
  have hi : pattern_stressed.intensifiers.countP
      (fun i => substrB i (pyStrip (pyLower "extremely really stressed"))) = 2 := by
    decide
  have hany : pattern_stressed.intensifiers.any
      (fun i => substrB i (pyStrip (pyLower "extremely really stressed"))) = true := by
    decide
  refine ⟨?_, ?_, by norm_num⟩
  · rw [emotionScore_eq, hk, hp, hi]
    norm_num [pattern_stressed]
  · rw [emotionScoreClaimedOnce]
    rw [hk, hp, if_pos hany]
    norm_num [pattern_stressed]

/-- C2 (amended): the independent crisis scan is OR'd into the result on
the Gemini-backed and hybrid paths — for any text containing a configured
crisis phrase and ANY external analyzer output, `crisis_indicators` is
true and `safety_flags` is non-empty there — but the pure rule-based
`detect_emotion` path performs no crisis scan: it always returns
`crisis_indicators = false` and `safety_flags = []` (crisis is instead
re-detected downstream by the safety checker). -/
theorem crisis_scan_or_across_backends :
    (∀ (text : String) (g : GeminiEmotion) (fb : Bool)
        (vader : Except String SentimentScores) (vaderRaw : Except String ℚ),
      (∃ k ∈ EmotionKeywords.CRISIS_KEYWORDS, substrB k (pyLower text) = true) →
      ∃ r, analyze_with_gemini text true (.ok g) fb vader vaderRaw = .ok r ∧
        r.crisis_indicators = true ∧ r.safety_flags ≠ [])
    ∧ (∀ (text : String) (g : GeminiEmotion) (fb : Bool)
        (vader : Except String SentimentScores) (vaderRaw : Except String ℚ),
      (∃ k ∈ EmotionKeywords.CRISIS_KEYWORDS, substrB k (pyLower text) = true) →
      (analyze_hybrid text true (.ok g) fb vader vaderRaw).crisis_indicators = true ∧
      (analyze_hybrid text true (.ok g) fb vader vaderRaw).safety_flags ≠ [])
    ∧ (∀ (text : String) (vader : Except String SentimentScores),
      (detect_emotion text vader).crisis_indicators = false ∧
      (detect_emotion text vader).safety_flags = []) := by
  have hcd : ∀ text : String,
      (∃ k ∈ EmotionKeywords.CRISIS_KEYWORDS, substrB k (pyLower text) = true) →
      (detect_crisis_keywords text).1 = true ∧ (detect_crisis_keywords text).2 ≠ [] := by
    intro text h
    have hpos := (exists_iff_filter_pos _ _).mp h
    constructor
    · simp only [detect_crisis_keywords]
      exact decide_eq_true hpos
    · simp only [detect_crisis_keywords]
      exact List.length_pos.mp hpos
  have hrule : ∀ (text : String) (vader : Except String SentimentScores),
      (detect_emotion text vader).crisis_indicators = false ∧
      (detect_emotion text vader).safety_flags = [] := by
    intro text vader
    exact ⟨rfl, rfl⟩
  refine ⟨?_, ?_, hrule⟩
  · intro text g fb vader vaderRaw h
    obtain ⟨h1, h2⟩ := hcd text h
    refine ⟨_, rfl, ?_, ?_⟩
    · simp [h1]
    · simp only [h1, if_true]
      exact h2
  · intro text g fb vader vaderRaw h
    obtain ⟨h1, h2⟩ := hcd text h
    have hflags : (detect_emotion text vader).safety_flags = [] := (hrule text vader).2
    simp only [analyze_hybrid, analyze_with_gemini, Bool.not_true,
      Bool.false_eq_true, if_false, if_true, combine_emotion_results]
    constructor
    · simp [h1, (hrule text vader).1]
    · simp only [h1, if_true, hflags, List.nil_append]
      rw [Ne, List.dedup_eq_nil]
      exact h2

/-- Counterexample for C2 as frozen: on the spec's own crisis scenario
text the pure rule-based path returns `crisis_indicators = false` and
empty `safety_flags`, although the text contains configured crisis
phrases. -/
theorem rule_based_crisis_flag_counterexample :
    (∃ k ∈ EmotionKeywords.CRISIS_KEYWORDS,
      substrB k (pyLower "I want to end it all, there\x27s no point in living") = true) ∧
    (detect_emotion "I want to end it all, there\x27s no point in living"
      (Except.ok ⟨-(9 : ℚ)/10, 0, (9 : ℚ)/10, (1 : ℚ)/10, 0, 0⟩)).crisis_indicators
      = false ∧
    (detect_emotion "I want to end it all, there\x27s no point in living"
      (Except.ok ⟨-(9 : ℚ)/10, 0, (9 : ℚ)/10, (1 : ℚ)/10, 0, 0⟩)).safety_flags
      = [] :=
  ⟨by decide, rfl, rfl⟩

/-- Witness for C2 (amended): on the crisis scenario text with a concrete
external analyzer output, the Gemini path reports
`crisis_indicators = true` with non-empty `safety_flags` while the pure
rule-based path reports `false`. -/
theorem crisis_scan_or_across_backends_witness :
    (∃ r, analyze_with_gemini "I want to end it all, there\x27s no point in living"
        true (.ok {}) true (.ok ⟨-(9 : ℚ)/10, 0, (9 : ℚ)/10, (1 : ℚ)/10, 0, 0⟩)
        (.ok (-(9 : ℚ)/10)) = .ok r ∧
      r.crisis_indicators = true ∧ r.safety_flags ≠ []) ∧
    (analyze_hybrid "I want to end it all, there\x27s no point in living"
        true (.ok {}) true (.ok ⟨-(9 : ℚ)/10, 0, (9 : ℚ)/10, (1 : ℚ)/10, 0, 0⟩)
        (.ok (-(9 : ℚ)/10))).crisis_indicators = true :=
  ⟨(crisis_scan_or_across_backends.1 "I want to end it all, there\x27s no point in living"
      {} true (.ok ⟨-(9 : ℚ)/10, 0, (9 : ℚ)/10, (1 : ℚ)/10, 0, 0⟩)
      (.ok (-(9 : ℚ)/10)) (by decide)),
   (crisis_scan_or_across_backends.2.1 "I want to end it all, there\x27s no point in living"
      {} true (.ok ⟨-(9 : ℚ)/10, 0, (9 : ℚ)/10, (1 : ℚ)/10, 0, 0⟩)
      (.ok (-(9 : ℚ)/10)) (by decide)).1⟩

lemma calculate_confidence_bounds (scores : List (String × ℚ)) (text : String) :
    0 ≤ calculate_confidence scores text ∧ calculate_confidence scores text ≤ 1 := by
  cases scores with
  | nil => simp [calculate_confidence]
  | cons x xs =>
    simp only [calculate_confidence]
    constructor
    · exact le_max_left 0 _
    · exact max_le (by norm_num) (min_le_left 1 _)

lemma get_primary_cases (scores : List (String × ℚ)) :
    get_primary_emotion scores = "neutral" ∨
    get_primary_emotion scores ∈ scores.map Prod.fst := by
  cases scores with
  | nil => left; rfl
  | cons x xs =>
    simp only [get_primary_emotion]
    by_cases hall : (x :: xs).all (fun es => es.2 == 0)
    · left; rw [if_pos hall]
    · rw [if_neg hall]
      by_cases hlow : (maxPair x xs).2 < (3 : ℚ)/10
      · left; rw [if_pos hlow]
      · right
        rw [if_neg hlow]
        rcases maxPair_mem x xs with h | h
        · rw [h]; exact List.mem_map_of_mem Prod.fst (List.mem_cons_self x xs)
        · exact List.mem_map_of_mem Prod.fst (List.mem_cons_of_mem x h)

lemma apply_sentiment_weighting_fst (scores : List (String × ℚ)) (c : ℚ) :
    (apply_sentiment_weighting scores c).map Prod.fst = scores.map Prod.fst := by
  unfold apply_sentiment_weighting
  split
  · rw [List.map_map]
    apply List.map_congr_left
    intro es _
    dsimp only [Function.comp]
    split <;> rfl
  · split
    · rw [List.map_map]
      apply List.map_congr_left
      intro es _
      dsimp only [Function.comp]
      split <;> rfl
    · rfl

lemma calculate_emotion_scores_fst (tc tl : String) :
    (calculate_emotion_scores tc tl).map Prod.fst = EMOTION_PATTERNS.map Prod.fst := by
  simp [calculate_emotion_scores, List.map_map]

lemma detect_emotion_bounds (text : String) (vader : Except String SentimentScores) :
    0 ≤ (detect_emotion text vader).confidence ∧
    (detect_emotion text vader).confidence ≤ 1 ∧
    (detect_emotion text vader).primary_emotion ∈ EMOTION_ENUM := by
  have hconf := calculate_confidence_bounds
    (apply_sentiment_weighting
      (calculate_emotion_scores (cleanText (pyStrip (pyLower text)))
        (pyStrip (pyLower text)))
      (analyze_sentiment vader).compound)
    (cleanText (pyStrip (pyLower text)))
  refine ⟨hconf.1, hconf.2, ?_⟩
  rcases get_primary_cases
      (apply_sentiment_weighting
        (calculate_emotion_scores (cleanText (pyStrip (pyLower text)))
          (pyStrip (pyLower text)))
        (analyze_sentiment vader).compound) with h | h
  · show (detect_emotion text vader).primary_emotion ∈ EMOTION_ENUM
    simp only [detect_emotion]
    rw [h]
    decide
  · rw [apply_sentiment_weighting_fst, calculate_emotion_scores_fst] at h
    have hsub : ∀ x ∈ EMOTION_PATTERNS.map Prod.fst, x ∈ EMOTION_ENUM := by decide
    exact hsub _ h

lemma analyze_with_gemini_bounds (text : String) (gA : Bool)
    (gRes : Except String GeminiEmotion) (fb : Bool)
    (vader : Except String SentimentScores) (vaderRaw : Except String ℚ)
    (hg : ∀ g, gRes = .ok g → 0 ≤ g.confidence ∧ g.confidence ≤ 1 ∧
      g.primary_emotion ∈ EMOTION_ENUM) :
    ∀ r, analyze_with_gemini text gA gRes fb vader vaderRaw = .ok r →
      0 ≤ r.confidence ∧ r.confidence ≤ 1 ∧ r.primary_emotion ∈ EMOTION_ENUM := by
  intro r hr
  simp only [analyze_with_gemini] at hr
  by_cases hA : gA
  · rw [hA] at hr
    simp only [Bool.not_true, Bool.false_eq_true, if_false] at hr
    cases gRes with
    | ok g =>
      simp only at hr
      obtain ⟨h1, h2, h3⟩ := hg g rfl
      injection hr with hr
      subst hr
      exact ⟨h1, h2, h3⟩
    | error e =>
      simp only at hr
      by_cases hfb : fb
      · rw [if_pos hfb] at hr
        injection hr with hr
        subst hr
        exact detect_emotion_bounds text vader
      · rw [if_neg hfb] at hr
        cases hr
  · rw [Bool.eq_false_iff.mpr hA] at hr
    simp only [Bool.not_false, if_true] at hr
    injection hr with hr
    subst hr
    exact detect_emotion_bounds text vader

lemma combine_emotion_results_bounds (r g : EmotionResult)
    (hr : 0 ≤ r.confidence ∧ r.confidence ≤ 1 ∧ r.primary_emotion ∈ EMOTION_ENUM)
    (hg : 0 ≤ g.confidence ∧ g.confidence ≤ 1 ∧ g.primary_emotion ∈ EMOTION_ENUM) :
    0 ≤ (combine_emotion_results r g).confidence ∧
    (combine_emotion_results r g).confidence ≤ 1 ∧
    (combine_emotion_results r g).primary_emotion ∈ EMOTION_ENUM := by
  simp only [combine_emotion_results]
  by_cases h : g.confidence > r.confidence
  · simp only [if_pos h]
    exact hg
  · simp only [if_neg h]
    exact hr

lemma analyze_hybrid_bounds (text : String) (gA : Bool)
    (gRes : Except String GeminiEmotion) (fb : Bool)
    (vader : Except String SentimentScores) (vaderRaw : Except String ℚ)
    (hg : ∀ g, gRes = .ok g → 0 ≤ g.confidence ∧ g.confidence ≤ 1 ∧
      g.primary_emotion ∈ EMOTION_ENUM) :
    0 ≤ (analyze_hybrid text gA gRes fb vader vaderRaw).confidence ∧
    (analyze_hybrid text gA gRes fb vader vaderRaw).confidence ≤ 1 ∧
    (analyze_hybrid text gA gRes fb vader vaderRaw).primary_emotion ∈ EMOTION_ENUM := by
  simp only [analyze_hybrid]
  by_cases hA : gA
  · simp only [hA, if_true]
    cases hres : analyze_with_gemini text true gRes fb vader vaderRaw with
    | ok gr =>
      exact combine_emotion_results_bounds _ _ (detect_emotion_bounds text vader)
        (analyze_with_gemini_bounds text true gRes fb vader vaderRaw hg gr hres)
    | error e =>
      exact detect_emotion_bounds text vader
  · simp only [Bool.eq_false_iff.mpr hA, Bool.false_eq_true, if_false]
    exact detect_emotion_bounds text vader

/-- C7 (amended): `analyze_emotion` is total for every string input and
every oracle behaviour — the sentiment analyzer failing is substituted by
neutral sentiment, and every other failure path returns a neutral result —
and whenever the external Gemini analyzer output itself has confidence in
`[0,1]` and a primary emotion in the fixed enumeration, the returned
signal has confidence in `[0,1]` and a primary emotion in the fixed
enumeration.  (On the Gemini path the external confidence and primary
emotion are passed through unvalidated, so the bound is conditional
there; all locally-computed paths satisfy it unconditionally.) -/
theorem analyze_emotion_safe (text : String) (method : Option String)
    (cfg : AIConfig) (gA : Bool) (gRes : Except String GeminiEmotion)
    (vader : Except String SentimentScores) (vaderRaw : Except String ℚ)
    (hg : ∀ g, gRes = .ok g → 0 ≤ g.confidence ∧ g.confidence ≤ 1 ∧
      g.primary_emotion ∈ EMOTION_ENUM) :
    0 ≤ (analyze_emotion text method cfg gA gRes vader vaderRaw).confidence ∧
    (analyze_emotion text method cfg gA gRes vader vaderRaw).confidence ≤ 1 ∧
    (analyze_emotion text method cfg gA gRes vader vaderRaw).primary_emotion
      ∈ EMOTION_ENUM := by
  simp only [analyze_emotion]
  by_cases hEmpty : (pyStrip text == "") = true
  · simp only [hEmpty, if_true]
    exact ⟨le_refl 0, zero_le_one, by decide⟩
  · simp only [Bool.eq_false_iff.mpr hEmpty, Bool.false_eq_true, if_false]
    set m := method.getD cfg.ai_model_type with hm
    by_cases hGem : (m == "gemini" && cfg.use_gemini_for_emotions) = true
    · simp only [hGem, if_true]
      cases hres : analyze_with_gemini text gA gRes cfg.gemini_fallback_enabled
          vader vaderRaw with
      | ok r =>
        exact analyze_with_gemini_bounds text gA gRes cfg.gemini_fallback_enabled
          vader vaderRaw hg r hres
      | error e =>
        by_cases hrb : (m != "rule_based") = true
        · simp only [hrb, if_true]
          exact detect_emotion_bounds text vader
        · simp only [Bool.eq_false_iff.mpr hrb, Bool.false_eq_true, if_false]
          exact ⟨le_refl 0, zero_le_one, by decide⟩
    · simp only [Bool.eq_false_iff.mpr hGem, Bool.false_eq_true, if_false]
      by_cases hHyb : (m == "hybrid") = true
      · simp only [hHyb, if_true]
        exact analyze_hybrid_bounds text gA gRes cfg.gemini_fallback_enabled
          vader vaderRaw hg
      · simp only [Bool.eq_false_iff.mpr hHyb, Bool.false_eq_true, if_false]
        exact detect_emotion_bounds text vader

/-- Witness for C7: a concrete run on the rule-based path. -/
theorem analyze_emotion_safe_witness :
    0 ≤ (analyze_emotion "I feel stressed" none {} false (.error "down")
      (.ok ⟨0, 0, 0, 1, 0, 0⟩) (.ok 0)).confidence ∧
    (analyze_emotion "I feel stressed" none {} false (.error "down")
      (.ok ⟨0, 0, 0, 1, 0, 0⟩) (.ok 0)).confidence ≤ 1 ∧
    (analyze_emotion "I feel stressed" none {} false (.error "down")
      (.ok ⟨0, 0, 0, 1, 0, 0⟩) (.ok 0)).primary_emotion ∈ EMOTION_ENUM :=
  analyze_emotion_safe "I feel stressed" none {} false (.error "down")
    (.ok ⟨0, 0, 0, 1, 0, 0⟩) (.ok 0) (fun _ h => Except.noConfusion h)

/-- Counterexample for C7 as frozen: with the Gemini-emotions path enabled
and an external output of confidence `1.5` and primary emotion outside the
enumeration, `analyze_emotion` passes both through unvalidated. -/
theorem analyze_emotion_gemini_passthrough_counterexample :
    ¬ ((analyze_emotion "hello" (some "gemini")
        { ai_model_type := "rule_based", use_gemini_for_emotions := true,
          use_gemini_for_responses := false, gemini_fallback_enabled := true }
        true (.ok { primary_emotion := "flabbergasted", confidence := (3 : ℚ)/2 })
        (.ok ⟨0, 0, 0, 1, 0, 0⟩) (.ok 0)).confidence ≤ 1) ∧
    (analyze_emotion "hello" (some "gemini")
        { ai_model_type := "rule_based", use_gemini_for_emotions := true,
          use_gemini_for_responses := false, gemini_fallback_enabled := true }
        true (.ok { primary_emotion := "flabbergasted", confidence := (3 : ℚ)/2 })
        (.ok ⟨0, 0, 0, 1, 0, 0⟩) (.ok 0)).primary_emotion ∉ EMOTION_ENUM := by
  have hconf : (analyze_emotion "hello" (some "gemini")
      { ai_model_type := "rule_based", use_gemini_for_emotions := true,
        use_gemini_for_responses := false, gemini_fallback_enabled := true }
      true (.ok { primary_emotion := "flabbergasted", confidence := (3 : ℚ)/2 })
      (.ok ⟨0, 0, 0, 1, 0, 0⟩) (.ok 0)).confidence = (3 : ℚ)/2 := rfl
  have hprim : (analyze_emotion "hello" (some "gemini")
      { ai_model_type := "rule_based", use_gemini_for_emotions := true,
        use_gemini_for_responses := false, gemini_fallback_enabled := true }
      true (.ok { primary_emotion := "flabbergasted", confidence := (3 : ℚ)/2 })
      (.ok ⟨0, 0, 0, 1, 0, 0⟩) (.ok 0)).primary_emotion = "flabbergasted" := rfl
  constructor
  · rw [hconf]
    norm_num
  · rw [hprim]
    decide

/-- C8: in the hybrid composition the external message is chosen as the
final message if and only if it is non-empty, its stripped length is at
least 20 characters, and it contains (case-insensitively) none of the
deny-list dismissive phrases; in every other case the rule-based baseline
message is kept. -/
theorem validate_and_choose_spec (gemini_message rule_message user_input : String) :
    validate_and_choose_response gemini_message rule_message user_input =
      if gemini_message ≠ "" ∧ 20 ≤ (pyStrip gemini_message).length ∧
          (∀ p ∈ inappropriate_phrases, substrB p (pyLower gemini_message) = false)
      then gemini_message else rule_message := by
  simp only [validate_and_choose_response]
  by_cases hemp : gemini_message = ""
  · subst hemp
    simp
  · by_cases hlen : (pyStrip gemini_message).length < 20
    · rw [if_pos, if_neg]
      · rintro ⟨-, h2, -⟩
        omega
      · simp [hemp, hlen]
    · rw [if_neg]
      · by_cases hany : inappropriate_phrases.any
            (fun p => substrB p (pyLower gemini_message)) = true
        · rw [if_pos hany, if_neg]
          rintro ⟨-, -, h3⟩
          rcases List.any_eq_true.mp hany with ⟨p, hp, hsub⟩
          rw [h3 p hp] at hsub
          exact Bool.false_ne_true hsub
        · rw [if_neg (fun h => hany h), if_pos]
          refine ⟨hemp, by omega, ?_⟩
          intro p hp
          rw [Bool.eq_false_iff]
          intro hsub
          exact hany (List.any_eq_true.mpr ⟨p, hp, hsub⟩)
      · simp [hemp, hlen]

/-- C3: whenever the evaluated safety level is crisis, all three
composition paths short-circuit to the crisis generator — whose output does
not depend on the external-generator oracles, so no external call is made —
and the composed result has response type `crisis_intervention`, the fixed
crisis resource set, and `safety_intervention = true`. -/
theorem crisis_short_circuit (text : String) (er : EmotionResult)
    (rnd : RandDraws)
    (hc : (SafetyChecker.check_safety text er).safety_level = "crisis") :
    generate_rule_based_response text er rnd =
      generate_crisis_response rnd "rule_based"
    ∧ (∀ (gemRep : Except String String)
        (gemCoping : Except String (List String)) (fb : Bool),
        generate_gemini_response text er rnd gemRep gemCoping fb =
          .ok (generate_crisis_response rnd "gemini_crisis"))
    ∧ (∀ (gemRep : Except String String)
        (gemCoping : Except String (List String)),
        generate_hybrid_response text er rnd gemRep gemCoping =
          generate_crisis_response rnd "hybrid_crisis")
    ∧ (∀ src : String,
        (generate_crisis_response rnd src).response_type = "crisis_intervention"
        ∧ (generate_crisis_response rnd src).resources =
            (RESOURCES.lookup "crisis").getD []
        ∧ (generate_crisis_response rnd src).safety_intervention = true) := by
  have hb : ((SafetyChecker.check_safety text er).safety_level == "crisis") = true := by
    simp [hc]
  refine ⟨?_, ?_, ?_, ?_⟩
  · simp only [generate_rule_based_response, hb, if_true]
  · intro gemRep gemCoping fb
    simp only [generate_gemini_response, hb, if_true]
  · intro gemRep gemCoping
    simp only [generate_hybrid_response, hb, if_true]
  · intro src
    exact ⟨rfl, rfl, rfl⟩

/-- Witness for C3: the crisis scenario text short-circuits every path. -/
theorem crisis_short_circuit_witness :
    generate_rule_based_response "I want to end it all"
        (neutralResult "rule_based") {} =
      generate_crisis_response {} "rule_based"
    ∧ (generate_crisis_response {} "rule_based").response_type =
        "crisis_intervention" :=
  ⟨(crisis_short_circuit "I want to end it all" (neutralResult "rule_based")
      {} (by decide)).1,
   ((crisis_short_circuit "I want to end it all" (neutralResult "rule_based")
      {} (by decide)).2.2.2 "rule_based").1⟩

/-- C10: every crisis-intervention `ResponseResult` carries
`source = "rule_based"`: the `source` argument passed to the crisis
generator (including `"gemini_crisis"` on the external path and
`"hybrid_crisis"` on the hybrid path) is never written into the
constructed result. -/
theorem crisis_response_source_ignored (rnd : RandDraws) (src : String)
    (text : String) (er : EmotionResult) (gemRep : Except String String)
    (gemCoping : Except String (List String)) (fb : Bool)
    (hc : (SafetyChecker.check_safety text er).safety_level = "crisis") :
    (generate_crisis_response rnd src).source = "rule_based"
    ∧ (∀ r, generate_gemini_response text er rnd gemRep gemCoping fb = .ok r →
        r.source = "rule_based")
    ∧ (generate_hybrid_response text er rnd gemRep gemCoping).source =
        "rule_based" := by
  have hb : ((SafetyChecker.check_safety text er).safety_level == "crisis") = true := by
    simp [hc]
  refine ⟨rfl, ?_, ?_⟩
  · intro r hr
    simp only [generate_gemini_response, hb, if_true] at hr
    injection hr with hr
    subst hr
    rfl
  · simp only [generate_hybrid_response, hb, if_true]
    rfl

/-- Witness for C10: concrete crisis input on the hybrid path still
records `source = "rule_based"`. -/
theorem crisis_response_source_ignored_witness :
    (generate_crisis_response {} "hybrid_crisis").source = "rule_based"
    ∧ (generate_hybrid_response "I want to end it all"
        (neutralResult "rule_based") {} (.ok "external message")
        (.ok [])).source = "rule_based" :=
  ⟨(crisis_response_source_ignored {} "hybrid_crisis" "I want to end it all"
      (neutralResult "rule_based") (.ok "external message") (.ok []) true
      (by decide)).1,
   (crisis_response_source_ignored {} "hybrid_crisis" "I want to end it all"
      (neutralResult "rule_based") (.ok "external message") (.ok []) true
      (by decide)).2.2⟩

lemma process_emotion_detection_error (now : Int) (st : ManagerState)
    (s : AIServiceType) (e : String) :
    ∃ e' st', process_emotion_detection now st s (.error e) = (.error e', st') := by
  simp only [process_emotion_detection]
  split
  · exact ⟨_, _, rfl⟩
  · exact ⟨_, _, rfl⟩

lemma attempt_pipeline_error (now : Int) (st : ManagerState) (s : AIServiceType)
    (pipeE : AIServiceType → Except String EmotionResult)
    (pipeR : AIServiceType → Except String ResponseResult)
    (e : String) (hE : pipeE s = .error e) :
    ∃ e' st', attempt_pipeline now st s pipeE pipeR = (.error e', st') := by
  obtain ⟨e', st', hpe⟩ := process_emotion_detection_error now st s e
  rw [← hE] at hpe
  refine ⟨e', st', ?_⟩
  simp only [attempt_pipeline, hpe]

/-- C4: if the pipeline of whatever backend gets selected raises and the
fallback attempt raises too, `process_user_input` still returns normally
(the embedding is a total function mirroring the source's `try/except`
structure) with the emergency result: a neutral zero-confidence
`EmotionSignal`, an apologetic message from the fixed pool, and a
resources list containing exactly the Crisis Text Line entry. -/
theorem process_user_input_emergency (now : Int) (st0 : ManagerState)
    (gA : Bool) (configured : AIServiceType) (preferred : Option AIServiceType)
    (pipeE : AIServiceType → Except String EmotionResult)
    (pipeR : AIServiceType → Except String ResponseResult)
    (eIdx : Nat) (dt : ℚ) (msgs : AIServiceType → String)
    (hE : ∀ s, pipeE s = .error (msgs s)) :
    (process_user_input now st0 gA configured preferred pipeE pipeR eIdx
      dt).1.response_result.response_type = "emergency_fallback" ∧
    (process_user_input now st0 gA configured preferred pipeE pipeR eIdx
      dt).1.response_result.resources = [crisisTextLineResource] ∧
    (process_user_input now st0 gA configured preferred pipeE pipeR eIdx
      dt).1.response_result.message ∈ EMERGENCY_MESSAGES ∧
    (process_user_input now st0 gA configured preferred pipeE pipeR eIdx
      dt).1.emotion_result.primary_emotion = "neutral" ∧
    (process_user_input now st0 gA configured preferred pipeE pipeR eIdx
      dt).1.emotion_result.confidence = 0 := by
  have hmem : pickOne EMERGENCY_MESSAGES eIdx ∈ EMERGENCY_MESSAGES :=
    pickOne_mem _ _ (by decide)
  rcases hsel : select_optimal_service now gA configured preferred st0 with ⟨sel1, st1⟩
  obtain ⟨e1, st2, h1⟩ :=
    attempt_pipeline_error now st1 sel1 pipeE pipeR (msgs sel1) (hE sel1)
  rcases hfb : get_fallback_service now gA st2 sel1 with ⟨fb1, st3⟩
  simp only [process_user_input, hsel, h1, hfb]
  by_cases hne : fb1 ≠ sel1
  · obtain ⟨e2, st4, h2⟩ :=
      attempt_pipeline_error now st3 fb1 pipeE pipeR (msgs fb1) (hE fb1)
    rw [if_pos hne, h2]
    exact ⟨rfl, rfl, hmem, rfl, rfl⟩
  · rw [if_neg hne]
    exact ⟨rfl, rfl, hmem, rfl, rfl⟩

/-- Witness for C4: both oracles fail on every backend and the manager
still returns the emergency response with the Crisis Text Line entry. -/
theorem process_user_input_emergency_witness :
    (process_user_input 0 initialState true .rule_based none
      (fun _ => .error "boom") (fun _ => .error "boom") 0
      0).1.response_result.response_type = "emergency_fallback" ∧
    (process_user_input 0 initialState true .rule_based none
      (fun _ => .error "boom") (fun _ => .error "boom") 0
      0).1.response_result.resources = [crisisTextLineResource] :=
  ⟨(process_user_input_emergency 0 initialState true .rule_based none
      (fun _ => .error "boom") (fun _ => .error "boom") 0 0
      (fun _ => "boom") (fun _ => rfl)).1,
   (process_user_input_emergency 0 initialState true .rule_based none
      (fun _ => .error "boom") (fun _ => .error "boom") 0 0
      (fun _ => "boom") (fun _ => rfl)).2.1⟩

lemma record_service_failure_cbs (now : Int) (st : ManagerState)
    (s : AIServiceType) :
    (record_service_failure now st s).cbs s =
      { failures := (st.cbs s).failures + 1
        last_failure := some now
        is_open := if (st.cbs s).failures + 1 ≥ circuit_breaker_threshold
          then true else (st.cbs s).is_open } := by
  simp [record_service_failure, ManagerState.setCB]

/-- C5 (amended): the health predicate for `rule_based` is NOT
unconditionally true — the circuit-breaker gate is evaluated first for
every backend, `rule_based` included.  `rule_based` reports healthy
exactly when its breaker is closed or its cool-down has elapsed; while its
breaker is open within the window the health predicate returns false. -/
theorem rule_based_health_gated (now : Int) (gA : Bool) (st : ManagerState) :
    ((st.cbs .rule_based).is_open = false →
      (is_service_healthy now gA st .rule_based).1 = true)
    ∧ (∀ t : Int, (st.cbs .rule_based).is_open = true →
        (st.cbs .rule_based).last_failure = some t → now - t ≤ 300 →
        (is_service_healthy now gA st .rule_based).1 = false)
    ∧ (∀ t : Int, (st.cbs .rule_based).is_open = true →
        (st.cbs .rule_based).last_failure = some t → now - t > 300 →
        (is_service_healthy now gA st .rule_based).1 = true) := by
  refine ⟨?_, ?_, ?_⟩
  · intro hopen
    simp [is_service_healthy, is_circuit_breaker_open, hopen]
  · intro t hopen hlast hle
    simp only [is_service_healthy, is_circuit_breaker_open, hopen,
      Bool.not_true, Bool.false_eq_true, if_false, hlast,
      circuit_breaker_timeout]
    rw [if_neg (by omega : ¬ now - t > 300)]
    simp
  · intro t hopen hlast hgt
    simp only [is_service_healthy, is_circuit_breaker_open, hopen,
      Bool.not_true, Bool.false_eq_true, if_false, hlast,
      circuit_breaker_timeout]
    rw [if_pos (by omega : now - t > 300)]
    simp

/-- Counterexample for C5 as frozen: the reachable state obtained by
recording five failures against `rule_based` (circuit open, cool-down not
elapsed at `now = 10`) makes `_is_service_healthy(rule_based)` return
false. -/
theorem rule_based_health_counterexample :
    ((record_service_failure 0 (record_service_failure 0
        (record_service_failure 0 (record_service_failure 0
          (record_service_failure 0 initialState .rule_based)
          .rule_based) .rule_based) .rule_based) .rule_based).cbs
      AIServiceType.rule_based).is_open = true ∧
    (is_service_healthy 10 true
      (record_service_failure 0 (record_service_failure 0
        (record_service_failure 0 (record_service_failure 0
          (record_service_failure 0 initialState .rule_based)
          .rule_based) .rule_based) .rule_based) .rule_based)
      .rule_based).1 = false := by
  constructor
  · decide
  · decide

/-- C6 (amended): per-backend circuit-breaker mechanics.  Five recorded
failures open the circuit; while open and within the 300 s window every
health query reports the backend unhealthy; once strictly more than 300 s
have elapsed past the last failure the next query lazily closes the
circuit and zeroes the failure counter.  After the reset the health check
returns true for backends not otherwise gated (`rule_based`
unconditionally, `hybrid` when its recorded status is healthy/degraded),
while `ml` remains always unhealthy (and `gemini` additionally requires
its external dependency) — so the claim's "health check returns true
again" does not hold for every backend. -/
theorem circuit_breaker_mechanics :
    (∀ (st : ManagerState) (s : AIServiceType) (t1 t2 t3 t4 t5 : Int),
      ((record_service_failure t5 (record_service_failure t4
        (record_service_failure t3 (record_service_failure t2
          (record_service_failure t1 st s) s) s) s) s).cbs s).is_open = true)
    ∧ (∀ (now : Int) (gA : Bool) (st : ManagerState) (s : AIServiceType) (t : Int),
        (st.cbs s).is_open = true → (st.cbs s).last_failure = some t →
        now - t ≤ 300 →
        (is_circuit_breaker_open now (st.cbs s)).1 = true ∧
        (is_service_healthy now gA st s).1 = false)
    ∧ (∀ (now : Int) (st : ManagerState) (s : AIServiceType) (t : Int),
        (st.cbs s).is_open = true → (st.cbs s).last_failure = some t →
        now - t > 300 →
        is_circuit_breaker_open now (st.cbs s) =
          (false, { failures := 0, last_failure := some t, is_open := false }))
    ∧ (∀ (now : Int) (gA : Bool) (st : ManagerState) (t : Int),
        (st.cbs .rule_based).is_open = true →
        (st.cbs .rule_based).last_failure = some t → now - t > 300 →
        (is_service_healthy now gA st .rule_based).1 = true)
    ∧ (∀ (now : Int) (gA : Bool) (st : ManagerState) (t : Int),
        (st.cbs .hybrid).is_open = true →
        (st.cbs .hybrid).last_failure = some t → now - t > 300 →
        ((st.health .hybrid).status = .healthy ∨
          (st.health .hybrid).status = .degraded) →
        (is_service_healthy now gA st .hybrid).1 = true)
    ∧ (∀ (now : Int) (gA : Bool) (st : ManagerState),
        (is_service_healthy now gA st .ml).1 = false) := by
  refine ⟨?_, ?_, ?_, ?_, ?_, ?_⟩
  · intro st s t1 t2 t3 t4 t5
    simp only [record_service_failure_cbs, circuit_breaker_threshold]
    rw [if_pos (by omega)]
  · intro now gA st s t hopen hlast hle
    constructor
    · simp only [is_circuit_breaker_open, hopen, Bool.not_true,
        Bool.false_eq_true, if_false, hlast, circuit_breaker_timeout]
      rw [if_neg (by omega : ¬ now - t > 300)]
    · simp only [is_service_healthy, is_circuit_breaker_open, hopen,
        Bool.not_true, Bool.false_eq_true, if_false, hlast,
        circuit_breaker_timeout]
      rw [if_neg (by omega : ¬ now - t > 300)]
      simp
  · intro now st s t hopen hlast hgt
    simp only [is_circuit_breaker_open, hopen, Bool.not_true,
      Bool.false_eq_true, if_false, hlast, circuit_breaker_timeout]
    rw [if_pos (by omega : now - t > 300)]
  · intro now gA st t hopen hlast hgt
    simp only [is_service_healthy, is_circuit_breaker_open, hopen,
      Bool.not_true, Bool.false_eq_true, if_false, hlast,
      circuit_breaker_timeout]
    rw [if_pos (by omega : now - t > 300)]
    simp
  · intro now gA st t hopen hlast hgt hstat
    simp only [is_service_healthy, is_circuit_breaker_open, hopen,
      Bool.not_true, Bool.false_eq_true, if_false, hlast,
      circuit_breaker_timeout]
    rw [if_pos (by omega : now - t > 300)]
    rcases hstat with h | h <;> simp [ManagerState.setCB, h]
  · intro now gA st
    simp only [is_service_healthy]
    by_cases hob : (is_circuit_breaker_open now (st.cbs .ml)).1 = true
    · simp [hob]
    · simp [Bool.eq_false_iff.mpr hob]

/-- Counterexample for C6 as frozen: after five recorded failures for the
`ml` backend and an elapsed cool-down (301 s), the next health query does
lazily reset its circuit breaker, yet the health check still returns
false (`ml` is gated as unimplemented), so "the health check returns true
again" fails for that backend. -/
theorem circuit_breaker_reset_health_counterexample :
    (is_circuit_breaker_open 301
      ((record_service_failure 0 (record_service_failure 0
        (record_service_failure 0 (record_service_failure 0
          (record_service_failure 0 initialState .ml) .ml) .ml) .ml)
        .ml).cbs AIServiceType.ml)).1 = false ∧
    (is_circuit_breaker_open 301
      ((record_service_failure 0 (record_service_failure 0
        (record_service_failure 0 (record_service_failure 0
          (record_service_failure 0 initialState .ml) .ml) .ml) .ml)
        .ml).cbs AIServiceType.ml)).2.failures = 0 ∧
    (is_service_healthy 301 true
      (record_service_failure 0 (record_service_failure 0
        (record_service_failure 0 (record_service_failure 0
          (record_service_failure 0 initialState .ml) .ml) .ml) .ml)
        .ml) .ml).1 = false := by
  refine ⟨by decide, by decide, by decide⟩

/-- Witness for C6: concrete five-failure states for several backends,
checked while the circuit is open (now = 100) and after the cool-down
(now = 301). -/
theorem circuit_breaker_mechanics_witness :
    (((record_service_failure 0 (record_service_failure 0
      (record_service_failure 0 (record_service_failure 0
        (record_service_failure 0 initialState .gemini) .gemini) .gemini) .gemini)
      .gemini).cbs AIServiceType.gemini).is_open = true)
    ∧ ((is_circuit_breaker_open 100
        ((record_service_failure 0 (record_service_failure 0
      (record_service_failure 0 (record_service_failure 0
        (record_service_failure 0 initialState .gemini) .gemini) .gemini) .gemini)
      .gemini).cbs AIServiceType.gemini)).1 = true ∧
      (is_service_healthy 100 true
        (record_service_failure 0 (record_service_failure 0
      (record_service_failure 0 (record_service_failure 0
        (record_service_failure 0 initialState .gemini) .gemini) .gemini) .gemini)
      .gemini) AIServiceType.gemini).1 = false)
    ∧ (is_circuit_breaker_open 301
        ((record_service_failure 0 (record_service_failure 0
      (record_service_failure 0 (record_service_failure 0
        (record_service_failure 0 initialState .gemini) .gemini) .gemini) .gemini)
      .gemini).cbs AIServiceType.gemini) =
        (false, { failures := 0, last_failure := some 0, is_open := false }))
    ∧ ((is_service_healthy 301 true
        (record_service_failure 0 (record_service_failure 0
      (record_service_failure 0 (record_service_failure 0
        (record_service_failure 0 initialState .rule_based) .rule_based) .rule_based) .rule_based)
      .rule_based) AIServiceType.rule_based).1 = true)
    ∧ ((is_service_healthy 301 true
        (record_service_failure 0 (record_service_failure 0
      (record_service_failure 0 (record_service_failure 0
        (record_service_failure 0 initialState .hybrid) .hybrid) .hybrid) .hybrid)
      .hybrid) AIServiceType.hybrid).1 = true)
    ∧ ((is_service_healthy 0 true initialState AIServiceType.ml).1 = false) :=
  ⟨circuit_breaker_mechanics.1 initialState .gemini 0 0 0 0 0,
   circuit_breaker_mechanics.2.1 100 true
     (record_service_failure 0 (record_service_failure 0
      (record_service_failure 0 (record_service_failure 0
        (record_service_failure 0 initialState .gemini) .gemini) .gemini) .gemini)
      .gemini) .gemini 0 (by decide) (by decide) (by decide),
   circuit_breaker_mechanics.2.2.1 301
     (record_service_failure 0 (record_service_failure 0
      (record_service_failure 0 (record_service_failure 0
        (record_service_failure 0 initialState .gemini) .gemini) .gemini) .gemini)
      .gemini) .gemini 0 (by decide) (by decide) (by decide),
   circuit_breaker_mechanics.2.2.2.1 301 true
     (record_service_failure 0 (record_service_failure 0
      (record_service_failure 0 (record_service_failure 0
        (record_service_failure 0 initialState .rule_based) .rule_based) .rule_based) .rule_based)
      .rule_based) 0 (by decide) (by decide) (by decide),
   circuit_breaker_mechanics.2.2.2.2.1 301 true
     (record_service_failure 0 (record_service_failure 0
      (record_service_failure 0 (record_service_failure 0
        (record_service_failure 0 initialState .hybrid) .hybrid) .hybrid) .hybrid)
      .hybrid) 0 (by decide) (by decide) (by decide) (Or.inl rfl),
   circuit_breaker_mechanics.2.2.2.2.2 0 true initialState⟩

/-- Witness for C5: in the initial state the `rule_based` breaker is
closed and the health predicate returns true. -/
theorem rule_based_health_gated_witness :
    ((initialState.cbs AIServiceType.rule_based).is_open = false) ∧
    (is_service_healthy 0 true initialState AIServiceType.rule_based).1 = true :=
  ⟨rfl, (rule_based_health_gated 0 true initialState).1 rfl⟩
